import Mathlib

unseal Rat.add Rat.sub Rat.mul

set_option maxRecDepth 2000

/-!
Verification of the SDR voice-agent core (`src/sdr_agent` and `src/turn_detector.py`)
against its natural-language specification.

The Python sources are shallowly embedded: pure functions become Lean functions,
the per-session mutable state of the pipeline becomes explicit state records with
step functions, wall-clock timestamps become rational numbers (seconds), and the
asynchronous loops of `pipeline.py` are modelled as sequential event traces
(one event per loop iteration).  Floating-point RMS values, thresholds and
probabilities are modelled in `ℚ`; rational constants are written with `mkRat`
so that concrete runs evaluate inside the kernel.
-/

/-! ### Character-level embeddings of the Python string primitives

`str.lower()`, `str.strip()`, `str.split()`, the `in` substring test and
`" ".join` are embedded as structurally recursive functions on the character
data of a `String` (the pipeline only manipulates ASCII marker strings, where
`Char.toLower` agrees with Python's `str.lower`). -/

/-- Python `s.lower()` (character-wise ASCII lowering). -/
def pyLower (s : String) : String := ⟨s.data.map Char.toLower⟩

/-- Python `s.strip()`: remove whitespace from both ends. -/
def pyStrip (s : String) : String :=
  ⟨((s.data.dropWhile Char.isWhitespace).reverse.dropWhile Char.isWhitespace).reverse⟩

/-- Helper for `pyWords`: `acc` holds the current in-progress word, reversed. -/
def pyWordsAux : List Char → List Char → List String
  | [], acc => if acc.isEmpty then [] else [⟨acc.reverse⟩]
  | c :: cs, acc =>
    if c.isWhitespace then
      if acc.isEmpty then pyWordsAux cs [] else (⟨acc.reverse⟩ : String) :: pyWordsAux cs []
    else pyWordsAux cs (c :: acc)

/-- Python `s.split()` with no separator: split on whitespace runs, dropping
empty pieces. -/
def pyWords (s : String) : List String := pyWordsAux s.data []

/-- Substring occurrence on character lists. -/
def subListOf (needle : List Char) : List Char → Bool
  | [] => needle.isEmpty
  | c :: cs => needle.isPrefixOf (c :: cs) || subListOf needle cs

/-- Python `needle in hay` for strings. -/
def pySubstr (needle hay : String) : Bool := subListOf needle.data hay.data

/-- Python `" ".join(xs)`. -/
def joinSpace : List String → String
  | [] => ""
  | [s] => s
  | s :: rest => s ++ " " ++ joinSpace rest

/-! ### VAD barge-in detector (`src/sdr_agent/pipeline.py`)

`feed_stt` (pipeline.py lines 368-440) computes an RMS value per 20 ms frame,
appends it to a `collections.deque(maxlen=1500)`, derives an adaptive
threshold, and runs a four-state machine that fires at most one interrupt per
speaking episode.  Frames are fed to the model as their RMS values (the claims
quantify over RMS series, so `calculate_rms` itself is not needed). -/

/-- VAD state constants (pipeline.py lines 20-23). -/
def VAD_SILENCE : ℕ := 0

def VAD_STARTING : ℕ := 1

def VAD_SPEAKING : ℕ := 2

def VAD_STOPPING : ℕ := 3

/-- `VAD_INTERRUPT_DURATION = 0.2` (200 ms of voice to trigger interrupt). -/
def VAD_INTERRUPT_DURATION : ℚ := mkRat 1 5

/-- One 20 ms frame, as a fraction of a second (`VAD_CHUNK_DURATION = 0.02`). -/
def VAD_CHUNK_DURATION : ℚ := mkRat 1 50

/-- `audio_levels.append(rms)` on a `deque(maxlen=1500)`: append on the right,
evicting from the left once the window exceeds 1500 entries. -/
def pushLevel (audioLevels : List ℚ) (rms : ℚ) : List ℚ :=
  if 1500 < (audioLevels ++ [rms]).length then
    (audioLevels ++ [rms]).drop ((audioLevels ++ [rms]).length - 1500)
  else audioLevels ++ [rms]

/-- Unconditional form of the `deque` push (dropping zero elements when the
window is still short). -/
theorem pushLevel_eq (w : List ℚ) (x : ℚ) :
    pushLevel w x = (w ++ [x]).drop ((w ++ [x]).length - 1500) := by
  unfold pushLevel
  split_ifs with h
  · rfl
  · rw [Nat.sub_eq_zero_of_le (not_lt.1 h), List.drop_zero]

/-- `get_adaptive_threshold` (pipeline.py lines 42-50).  Python `sorted` is an
ascending sort (embedded with `insertionSort`; only the sorted values matter),
and `int(len(sorted_levels) * 0.85)` equals `len * 85 / 100` in integer
arithmetic for every reachable window size `len ≤ 1500`. -/
def get_adaptive_threshold (audio_levels : List ℚ) : ℚ :=
  if audio_levels.length < 50 then 500
  else
    let sorted_levels := audio_levels.insertionSort (· ≤ ·)
    let p85_idx := audio_levels.length * 85 / 100
    let baseline := sorted_levels.getD p85_idx 0
    max 300 (min (baseline * mkRat 3 2) 2000)

/-- The VAD-relevant per-session state of `feed_stt`. -/
structure VadState where
  vadState : ℕ
  voiceStartTime : ℚ
  audioLevels : List ℚ
  vadTriggered : Bool
  speaking : Bool
  greetingCooldownUntil : ℚ
  deriving Repr, DecidableEq

/-- The state-machine part of one `feed_stt` loop iteration (pipeline.py lines
389-430), after the RMS has been appended and the threshold computed.  Returns
the updated state and whether an interrupt fired (`_handle_interrupt` plus
`self._speaking = False`). -/
def vadDecide (s : VadState) (currentTime threshold rms : ℚ) : VadState × Bool :=
  -- `in_cooldown = self._greeting_cooldown_until > 0 and current_time < self._greeting_cooldown_until`
  if s.speaking ∧ ¬ (s.greetingCooldownUntil > 0 ∧ currentTime < s.greetingCooldownUntil) then
    if s.vadState = VAD_SILENCE then
      if rms > threshold then
        ({ s with vadState := VAD_STARTING, voiceStartTime := currentTime }, false)
      else (s, false)
    else if s.vadState = VAD_STARTING then
      if rms > threshold then
        -- `voice_duration = current_time - voice_start_time`
        if currentTime - s.voiceStartTime ≥ VAD_INTERRUPT_DURATION then
          if ¬ s.vadTriggered then
            ({ s with vadState := VAD_SPEAKING, vadTriggered := true, speaking := false }, true)
          else ({ s with vadState := VAD_SPEAKING }, false)
        else (s, false)
      else ({ s with vadState := VAD_SILENCE }, false)
    else if s.vadState = VAD_SPEAKING then
      if rms < threshold then ({ s with vadState := VAD_STOPPING }, false) else (s, false)
    else
      if rms > threshold then ({ s with vadState := VAD_SPEAKING }, false)
      else ({ s with vadState := VAD_SILENCE, vadTriggered := false }, false)
  else if ¬ s.speaking then
    ({ s with vadState := VAD_SILENCE, vadTriggered := false }, false)
  else (s, false)

/-- One full `feed_stt` iteration on one 20 ms frame of the given RMS:
append to the rolling window, compute the adaptive threshold on the updated
window, then run the state machine. -/
def vadFrame (s : VadState) (currentTime rms : ℚ) : VadState × Bool :=
  vadDecide { s with audioLevels := pushLevel s.audioLevels rms } currentTime
    (get_adaptive_threshold (pushLevel s.audioLevels rms)) rms

/-- Run `feed_stt` over a list of consecutive 20 ms frames (given by RMS),
the first frame arriving at time `t`; returns the final state and the list of
interrupt flags, one per frame. -/
def vadRun : VadState → ℚ → List ℚ → VadState × List Bool
  | s, _, [] => (s, [])
  | s, t, rms :: rest =>
    ((vadRun (vadFrame s t rms).1 (t + VAD_CHUNK_DURATION) rest).1,
      (vadFrame s t rms).2 :: (vadRun (vadFrame s t rms).1 (t + VAD_CHUNK_DURATION) rest).2)

/-- Adaptive threshold the code computes at frame `i` (0-based) of a frame
series, starting from rolling window `w`: the window has just received frames
`0..i`. -/
def thresholdTrace (w : List ℚ) (frames : List ℚ) (i : ℕ) : ℚ :=
  get_adaptive_threshold (List.foldl pushLevel w (frames.take (i + 1)))

/-! ### C5: the adaptive threshold as a function of the RMS series -/

/-- Claim-side threshold (spec 4.2 / property 3): on the last at-most-1500
samples of the series, 500 if fewer than 50 samples, otherwise the
85th-percentile sample times 1.5 clamped to [300, 2000]. -/
def specAdaptiveThreshold (series : List ℚ) : ℚ :=
  let window := series.drop (series.length - 1500)
  if window.length < 50 then 500
  else
    max 300
      (min ((window.insertionSort (· ≤ ·)).getD (window.length * 85 / 100) 0 * mkRat 3 2) 2000)

/-- The state-machine part of a frame never modifies the rolling window. -/
theorem vadDecide_audioLevels (s : VadState) (t th r : ℚ) :
    ((vadDecide s t th r).1).audioLevels = s.audioLevels := by
  unfold vadDecide
  split_ifs <;> rfl

/-- The rolling window built by repeated `deque` pushes from an initial window
of at most 1500 samples is the suffix of length at most 1500 of everything. -/
theorem foldl_pushLevel_eq (xs : List ℚ) : ∀ w : List ℚ, w.length ≤ 1500 →
    List.foldl pushLevel w xs = (w ++ xs).drop ((w ++ xs).length - 1500) := by
  induction xs with
  | nil =>
    intro w hw
    simp [Nat.sub_eq_zero_of_le hw]
  | cons x xs ih =>
    intro w hw
    have hpush : pushLevel w x = (w ++ [x]).drop ((w ++ [x]).length - 1500) :=
      pushLevel_eq w x
    have hlen : (pushLevel w x).length ≤ 1500 := by
      rw [hpush]
      simp only [List.length_drop, List.length_append, List.length_singleton]
      omega
    have hd : (w ++ [x]).length - 1500 ≤ (w ++ [x]).length := Nat.sub_le _ _
    have hsplit : (w ++ [x]).drop ((w ++ [x]).length - 1500) ++ xs
        = ((w ++ [x]) ++ xs).drop ((w ++ [x]).length - 1500) :=
      (List.drop_append_of_le_length hd).symm
    rw [List.foldl_cons, ih _ hlen, hpush, hsplit, List.drop_drop]
    have harr : (w ++ [x]) ++ xs = w ++ x :: xs := by simp
    rw [harr]
    have hidx : (w ++ [x]).length - 1500 +
        (((w ++ x :: xs).drop ((w ++ [x]).length - 1500)).length - 1500)
        = (w ++ x :: xs).length - 1500 := by
      simp [List.length_drop]
      omega
    rw [hidx]

/-- Frame step: the rolling window receives the frame's RMS. -/
theorem vadFrame_audioLevels (s : VadState) (t r : ℚ) :
    ((vadFrame s t r).1).audioLevels = pushLevel s.audioLevels r := by
  rw [vadFrame, vadDecide_audioLevels]

/-- Along a run, the rolling window is the fold of `deque` pushes. -/
theorem vadRun_audioLevels (frames : List ℚ) : ∀ (s : VadState) (t : ℚ),
    (vadRun s t frames).1.audioLevels = List.foldl pushLevel s.audioLevels frames := by
  induction frames with
  | nil => intro s t; rfl
  | cons r rest ih =>
    intro s t
    simp only [vadRun]
    rw [ih, vadFrame_audioLevels, List.foldl_cons]

/-- C5: at every step of any RMS series, the threshold computed by
`get_adaptive_threshold` on the rolling window that `feed_stt` maintains
(starting from an empty window) equals 500 while the window holds fewer than
50 samples, and otherwise the 85th percentile of the last at-most-1500 RMS
samples, multiplied by 1.5 and clamped to [300, 2000]; moreover the window the
VAD run maintains is exactly that rolling window. -/
theorem c5_adaptive_threshold_continuous (series : List ℚ) (i : ℕ)
    (st : ℕ) (v : ℚ) (tr sp : Bool) (cd t0 : ℚ) :
    get_adaptive_threshold (List.foldl pushLevel [] (series.take (i + 1)))
        = specAdaptiveThreshold (series.take (i + 1))
      ∧ (vadRun { vadState := st, voiceStartTime := v, audioLevels := [],
                  vadTriggered := tr, speaking := sp,
                  greetingCooldownUntil := cd } t0 series).1.audioLevels
        = series.drop (series.length - 1500) := by
  constructor
  · rw [foldl_pushLevel_eq _ [] (by simp)]
    simp only [List.nil_append]
    rfl
  · rw [vadRun_audioLevels]
    simpa using foldl_pushLevel_eq series [] (by simp)

/-! ### C1: the VAD fires exactly one interrupt per speaking episode -/

/-- Basic constant facts used by the interrupt-timing arguments. -/
theorem chunk_pos : 0 < VAD_CHUNK_DURATION := by decide

theorem ten_chunks : (10 : ℚ) * VAD_CHUNK_DURATION = VAD_INTERRUPT_DURATION := by decide

/-- `SILENCE` step on an above-threshold frame: voice onset. -/
theorem vadDecide_silence_onset (s : VadState) (t th r : ℚ)
    (hs : s.vadState = VAD_SILENCE) (hsp : s.speaking = true)
    (hcd : s.greetingCooldownUntil ≤ t) (hr : th < r) :
    vadDecide s t th r = ({ s with vadState := VAD_STARTING, voiceStartTime := t }, false) := by
  have hncd : ¬ (s.greetingCooldownUntil > 0 ∧ t < s.greetingCooldownUntil) := by
    rintro ⟨-, h2⟩
    linarith
  simp [vadDecide, hs, hsp, hncd, hr]

/-- `STARTING` step on an above-threshold frame before 200 ms have elapsed:
state unchanged, no interrupt. -/
theorem vadDecide_starting_continue (s : VadState) (t th r : ℚ)
    (hs : s.vadState = VAD_STARTING) (hsp : s.speaking = true)
    (hcd : s.greetingCooldownUntil ≤ t) (hr : th < r)
    (hd : t - s.voiceStartTime < VAD_INTERRUPT_DURATION) :
    vadDecide s t th r = (s, false) := by
  have hncd : ¬ (s.greetingCooldownUntil > 0 ∧ t < s.greetingCooldownUntil) := by
    rintro ⟨-, h2⟩
    linarith
  have hnot : ¬ (VAD_INTERRUPT_DURATION ≤ t - s.voiceStartTime) := not_le.mpr hd
  simp [vadDecide, hs, hsp, hncd, hr, hnot, VAD_STARTING, VAD_SILENCE]

/-- `STARTING` step on an above-threshold frame once 200 ms have elapsed and
the episode has not yet triggered: the interrupt fires and `speaking` drops. -/
theorem vadDecide_starting_fire (s : VadState) (t th r : ℚ)
    (hs : s.vadState = VAD_STARTING) (hsp : s.speaking = true)
    (htr : s.vadTriggered = false)
    (hcd : s.greetingCooldownUntil ≤ t) (hr : th < r)
    (hd : VAD_INTERRUPT_DURATION ≤ t - s.voiceStartTime) :
    vadDecide s t th r
      = ({ s with vadState := VAD_SPEAKING, vadTriggered := true, speaking := false }, true) := by
  have hncd : ¬ (s.greetingCooldownUntil > 0 ∧ t < s.greetingCooldownUntil) := by
    rintro ⟨-, h2⟩
    linarith
  simp [vadDecide, hs, hsp, hncd, hr, hd, htr, VAD_STARTING, VAD_SILENCE]

/-- Once the session stops `speaking`, no frame ever fires an interrupt, and
`speaking` stays off for the rest of the run. -/
theorem vadRun_not_speaking (frames : List ℚ) : ∀ (s : VadState) (t : ℚ),
    s.speaking = false →
    (vadRun s t frames).2 = List.replicate frames.length false
      ∧ (vadRun s t frames).1.speaking = false := by
  induction frames with
  | nil => intro s t h; exact ⟨rfl, h⟩
  | cons r rest ih =>
    intro s t h
    have hframe : vadFrame s t r = ({ s with audioLevels := pushLevel s.audioLevels r, vadState := VAD_SILENCE, vadTriggered := false }, false) := by
      rw [vadFrame]
      simp [vadDecide, h]
    have := ih (vadFrame s t r).1 (t + VAD_CHUNK_DURATION) (by rw [hframe]; exact h)
    simp only [vadRun, List.length_cons, List.replicate_succ]
    refine ⟨?_, this.2⟩
    rw [this.1, hframe]

/-- A below-threshold frame keeps the machine inside {`SILENCE`, `STARTING`}
and fires nothing. -/
theorem vadDecide_below (s : VadState) (t th r : ℚ)
    (hs : s.vadState = VAD_SILENCE ∨ s.vadState = VAD_STARTING) (hr : r < th) :
    ((vadDecide s t th r).1.vadState = VAD_SILENCE
        ∨ (vadDecide s t th r).1.vadState = VAD_STARTING)
      ∧ (vadDecide s t th r).2 = false := by
  have hnr : ¬ (th < r) := not_lt.mpr (le_of_lt hr)
  rcases hs with hs | hs <;>
    · simp only [vadDecide, hs]
      split_ifs <;> simp_all [VAD_SILENCE, VAD_STARTING, VAD_SPEAKING, VAD_STOPPING]

/-- Run of below-threshold frames from {`SILENCE`, `STARTING`}: no interrupt
ever fires. -/
theorem vadRun_below (frames : List ℚ) : ∀ (s : VadState) (t : ℚ),
    (s.vadState = VAD_SILENCE ∨ s.vadState = VAD_STARTING) →
    (∀ i < frames.length, frames.getD i 0 < thresholdTrace s.audioLevels frames i) →
    (vadRun s t frames).2 = List.replicate frames.length false := by
  induction frames with
  | nil => intro s t _ _; rfl
  | cons r rest ih =>
    intro s t hs hb
    have h0 : r < get_adaptive_threshold (pushLevel s.audioLevels r) := by
      simpa [thresholdTrace] using hb 0 (by simp)
    have hstep := vadDecide_below { s with audioLevels := pushLevel s.audioLevels r } t
      (get_adaptive_threshold (pushLevel s.audioLevels r)) r (by simpa using hs) h0
    have hshift : ∀ i, thresholdTrace (pushLevel s.audioLevels r) rest i
        = thresholdTrace s.audioLevels (r :: rest) (i + 1) := by
      intro i
      unfold thresholdTrace
      rw [List.take_succ_cons, List.foldl_cons]
    have hb' : ∀ i < rest.length,
        rest.getD i 0 < thresholdTrace ((vadFrame s t r).1).audioLevels rest i := by
      intro i hi
      rw [vadFrame_audioLevels, hshift i]
      simpa [List.getD] using hb (i + 1) (by simpa using Nat.succ_lt_succ hi)
    have htail := ih (vadFrame s t r).1 (t + VAD_CHUNK_DURATION)
      (by rw [vadFrame]; exact hstep.1) hb'
    simp only [vadRun, List.length_cons, List.replicate_succ]
    rw [htail]
    rw [vadFrame]
    rw [hstep.2]

/-- Run of above-threshold frames from `STARTING`, the `j`-th 20 ms step after
voice onset (`1 ≤ j ≤ 10`): the interrupt fires exactly at the frame where the
elapsed voice duration reaches 200 ms, i.e. at remaining index `10 - j`. -/
theorem vadRun_starting (frames : List ℚ) : ∀ (s : VadState) (t0 : ℚ) (j : ℕ),
    s.vadState = VAD_STARTING → s.vadTriggered = false → s.speaking = true →
    s.voiceStartTime = t0 → s.greetingCooldownUntil ≤ t0 →
    1 ≤ j → j ≤ 10 →
    (∀ i < frames.length, thresholdTrace s.audioLevels frames i < frames.getD i 0) →
    (vadRun s (t0 + (j : ℚ) * VAD_CHUNK_DURATION) frames).2
        = (List.range frames.length).map (fun i => decide (i + j = 10))
      ∧ (frames.length + j ≤ 10 →
          (vadRun s (t0 + (j : ℚ) * VAD_CHUNK_DURATION) frames).1.vadState = VAD_STARTING)
      ∧ (10 < frames.length + j →
          (vadRun s (t0 + (j : ℚ) * VAD_CHUNK_DURATION) frames).1.speaking = false) := by
  induction frames with
  | nil =>
    intro s t0 j hs htr hsp hvs hcd hj1 hj10 ha
    refine ⟨rfl, fun _ => hs, fun h => ?_⟩
    simp only [List.length_nil, Nat.zero_add] at h
    omega
  | cons r rest ih =>
    intro s t0 j hs htr hsp hvs hcd hj1 hj10 ha
    have hcast10 : ((j : ℚ)) ≤ 10 := by exact_mod_cast hj10
    have hcdt : s.greetingCooldownUntil ≤ t0 + (j : ℚ) * VAD_CHUNK_DURATION := by
      have : (0 : ℚ) ≤ (j : ℚ) * VAD_CHUNK_DURATION :=
        mul_nonneg (Nat.cast_nonneg j) (le_of_lt chunk_pos)
      linarith
    have hr0 : get_adaptive_threshold (pushLevel s.audioLevels r) < r := by
      simpa [thresholdTrace] using ha 0 (by simp)
    have hshift : ∀ i, thresholdTrace (pushLevel s.audioLevels r) rest i
        = thresholdTrace s.audioLevels (r :: rest) (i + 1) := by
      intro i
      unfold thresholdTrace
      rw [List.take_succ_cons, List.foldl_cons]
    have ha' : ∀ i < rest.length,
        thresholdTrace (pushLevel s.audioLevels r) rest i < rest.getD i 0 := by
      intro i hi
      rw [hshift i]
      simpa [List.getD] using ha (i + 1) (by simpa using Nat.succ_lt_succ hi)
    rcases Nat.lt_or_ge j 10 with hjlt | hjge
    · -- continue in STARTING: duration j/50 < 1/5
      have hdur : (t0 + (j : ℚ) * VAD_CHUNK_DURATION) - s.voiceStartTime
          < VAD_INTERRUPT_DURATION := by
        rw [hvs]
        have hlt : ((j : ℚ)) < 10 := by exact_mod_cast hjlt
        have := mul_lt_mul_of_pos_right hlt chunk_pos
        rw [ten_chunks] at this
        linarith
      have hfr : vadFrame s (t0 + (j : ℚ) * VAD_CHUNK_DURATION) r
          = ({ s with audioLevels := pushLevel s.audioLevels r }, false) := by
        rw [vadFrame]
        exact vadDecide_starting_continue { s with audioLevels := pushLevel s.audioLevels r }
          (t0 + (j : ℚ) * VAD_CHUNK_DURATION) (get_adaptive_threshold (pushLevel s.audioLevels r))
          r hs hsp hcdt hr0 hdur
      have htime : (t0 + (j : ℚ) * VAD_CHUNK_DURATION) + VAD_CHUNK_DURATION
          = t0 + ((j + 1 : ℕ) : ℚ) * VAD_CHUNK_DURATION := by
        push_cast
        ring
      have hrec := ih { s with audioLevels := pushLevel s.audioLevels r } t0 (j + 1)
        hs htr hsp hvs hcd (by omega) (by omega) ha'
      simp only [vadRun, hfr, htime, List.length_cons]
      refine ⟨?_, fun hlen => ?_, fun hlen => ?_⟩
      · rw [hrec.1]
        rw [List.range_succ_eq_map, List.map_cons, List.map_map]
        have hhead : decide (0 + j = 10) = false := by
          have : ¬ (0 + j = 10) := by omega
          exact decide_eq_false this
        have hcomp : ((fun i => decide (i + j = 10)) ∘ Nat.succ)
            = (fun i => decide (i + (j + 1) = 10)) := by
          funext i
          exact decide_eq_decide.mpr (by omega)
        rw [hhead, hcomp]
      · exact hrec.2.1 (by omega)
      · exact hrec.2.2 (by omega)
    · -- j = 10: the interrupt fires on this frame
      have hj : j = 10 := by omega
      subst hj
      have hdur : VAD_INTERRUPT_DURATION
          ≤ (t0 + ((10 : ℕ) : ℚ) * VAD_CHUNK_DURATION) - s.voiceStartTime := by
        rw [hvs]
        have : ((10 : ℕ) : ℚ) * VAD_CHUNK_DURATION = VAD_INTERRUPT_DURATION := by
          push_cast
          rw [ten_chunks]
        linarith [this.ge]
      have hfr : vadFrame s (t0 + ((10 : ℕ) : ℚ) * VAD_CHUNK_DURATION) r
          = ({ s with audioLevels := pushLevel s.audioLevels r, vadState := VAD_SPEAKING, vadTriggered := true, speaking := false }, true) := by
        rw [vadFrame]
        exact vadDecide_starting_fire { s with audioLevels := pushLevel s.audioLevels r }
          (t0 + ((10 : ℕ) : ℚ) * VAD_CHUNK_DURATION)
          (get_adaptive_threshold (pushLevel s.audioLevels r)) r hs hsp htr hcdt hr0 hdur
      have hrest := vadRun_not_speaking rest
        ({ s with audioLevels := pushLevel s.audioLevels r, vadState := VAD_SPEAKING, vadTriggered := true, speaking := false })
        ((t0 + ((10 : ℕ) : ℚ) * VAD_CHUNK_DURATION) + VAD_CHUNK_DURATION) rfl
      simp only [vadRun, hfr, List.length_cons]
      refine ⟨?_, fun hlen => ?_, fun _ => ?_⟩
      · rw [hrest.1]
        rw [List.range_succ_eq_map, List.map_cons, List.map_map]
        have hhead : decide (0 + 10 = 10) = true := by decide
        have htail : (List.range rest.length).map ((fun i => decide (i + 10 = 10)) ∘ Nat.succ)
            = List.replicate rest.length false := by
          have hcomp : ((fun i => decide (i + 10 = 10)) ∘ Nat.succ)
              = (fun _ : ℕ => false) := by
            funext i
            show decide (i + 1 + 10 = 10) = false
            exact decide_eq_false (by omega)
          rw [hcomp]
          simp [List.map_const']
        rw [hhead, htail]
      · exact absurd hlen (by omega)
      · exact hrest.2

/-- Run of above-threshold frames starting from `SILENCE` with `speaking=true`,
outside the cooldown: the interrupt fires exactly at frame index 10 (the first
frame at which 200 ms of voice have elapsed since onset), if the run is long
enough. -/
theorem vadRun_above (A : List ℚ) (s : VadState) (t0 : ℚ)
    (hs : s.vadState = VAD_SILENCE) (htr : s.vadTriggered = false) (hsp : s.speaking = true)
    (hcd : s.greetingCooldownUntil ≤ t0)
    (ha : ∀ i < A.length, thresholdTrace s.audioLevels A i < A.getD i 0) :
    (vadRun s t0 A).2 = (List.range A.length).map (fun i => decide (i = 10))
      ∧ (A.length ≤ 10 →
          ((vadRun s t0 A).1.vadState = VAD_SILENCE
            ∨ (vadRun s t0 A).1.vadState = VAD_STARTING))
      ∧ (10 < A.length → (vadRun s t0 A).1.speaking = false) := by
  match A with
  | [] =>
    refine ⟨rfl, fun _ => Or.inl hs, fun h => ?_⟩
    simp at h
  | r :: rest =>
    have hr0 : get_adaptive_threshold (pushLevel s.audioLevels r) < r := by
      simpa [thresholdTrace] using ha 0 (by simp)
    have hfr : vadFrame s t0 r
        = ({ s with audioLevels := pushLevel s.audioLevels r, vadState := VAD_STARTING, voiceStartTime := t0 }, false) := by
      rw [vadFrame]
      exact vadDecide_silence_onset { s with audioLevels := pushLevel s.audioLevels r } t0
        (get_adaptive_threshold (pushLevel s.audioLevels r)) r hs hsp hcd hr0
    have hshift : ∀ i, thresholdTrace (pushLevel s.audioLevels r) rest i
        = thresholdTrace s.audioLevels (r :: rest) (i + 1) := by
      intro i
      unfold thresholdTrace
      rw [List.take_succ_cons, List.foldl_cons]
    have ha' : ∀ i < rest.length,
        thresholdTrace (pushLevel s.audioLevels r) rest i < rest.getD i 0 := by
      intro i hi
      rw [hshift i]
      simpa [List.getD] using ha (i + 1) (by simpa using Nat.succ_lt_succ hi)
    have htime : t0 + VAD_CHUNK_DURATION = t0 + ((1 : ℕ) : ℚ) * VAD_CHUNK_DURATION := by
      push_cast
      ring
    have hrec := vadRun_starting rest
      ({ s with audioLevels := pushLevel s.audioLevels r, vadState := VAD_STARTING, voiceStartTime := t0 })
      t0 1 rfl htr hsp rfl hcd (by omega) (by omega) ha'
    simp only [vadRun, hfr, htime, List.length_cons]
    refine ⟨?_, fun hlen => ?_, fun hlen => ?_⟩
    · rw [hrec.1]
      rw [List.range_succ_eq_map, List.map_cons, List.map_map]
      have hhead : decide ((0 : ℕ) = 10) = false := by decide
      have hcomp : ((fun i => decide (i = 10)) ∘ Nat.succ)
          = (fun i => decide (i + 1 = 10)) := by
        funext i
        show decide (i + 1 = 10) = decide (i + 1 = 10)
        rfl
      rw [hhead, hcomp]
    · exact Or.inr (hrec.2.1 (by omega))
    · exact hrec.2.2 (by omega)

/-- Unfolding equation of `vadRun` on a nonempty frame list. -/
theorem vadRun_cons (s : VadState) (t r : ℚ) (rest : List ℚ) :
    vadRun s t (r :: rest)
      = ((vadRun (vadFrame s t r).1 (t + VAD_CHUNK_DURATION) rest).1,
          (vadFrame s t r).2 :: (vadRun (vadFrame s t r).1 (t + VAD_CHUNK_DURATION) rest).2) :=
  rfl

/-- Splitting a frame run: frame `i` of the second part arrives
`l1.length` chunks after the start. -/
theorem vadRun_append (l1 l2 : List ℚ) : ∀ (s : VadState) (t : ℚ),
    vadRun s t (l1 ++ l2)
      = ((vadRun (vadRun s t l1).1 (t + (l1.length : ℚ) * VAD_CHUNK_DURATION) l2).1,
          (vadRun s t l1).2
            ++ (vadRun (vadRun s t l1).1 (t + (l1.length : ℚ) * VAD_CHUNK_DURATION) l2).2) := by
  induction l1 with
  | nil =>
    intro s t
    have ht : t + ((List.length (α := ℚ) [] : ℕ) : ℚ) * VAD_CHUNK_DURATION = t := by
      simp
    rw [List.nil_append, ht]
    rfl
  | cons x l1 ih =>
    intro s t
    have ht : t + VAD_CHUNK_DURATION + ((l1.length : ℕ) : ℚ) * VAD_CHUNK_DURATION
        = t + (((x :: l1).length : ℕ) : ℚ) * VAD_CHUNK_DURATION := by
      push_cast [List.length_cons]
      ring
    rw [List.cons_append, vadRun_cons, ih, ht, vadRun_cons]
    simp [List.cons_append]

/-- A `range`-map whose function is `false` from `a` onward absorbs a
`replicate` of `false`s. -/
theorem range_map_append_replicate (f : ℕ → Bool) (a b : ℕ)
    (h : ∀ i, a ≤ i → f i = false) :
    (List.range a).map f ++ List.replicate b false = (List.range (a + b)).map f := by
  rw [List.range_add, List.map_append, List.map_map]
  congr 1
  symm
  apply List.eq_replicate_iff.mpr
  refine ⟨by simp, ?_⟩
  intro x hx
  simp only [List.mem_map, List.mem_range] at hx
  obtain ⟨i, -, rfl⟩ := hx
  exact h (a + i) (by omega)

/-- A `range`-map whose function is everywhere `false` is a `replicate`. -/
theorem range_map_false (f : ℕ → Bool) (a : ℕ) (h : ∀ i < a, f i = false) :
    (List.range a).map f = List.replicate a false := by
  apply List.eq_replicate_iff.mpr
  refine ⟨by simp, ?_⟩
  intro x hx
  simp only [List.mem_map, List.mem_range] at hx
  obtain ⟨i, hi, rfl⟩ := hx
  exact h i hi

/-- C1: in a session with `speaking=true`, outside the greeting echo cooldown,
for a run of `k` consecutive 20 ms frames whose RMS exceeds the adaptive
threshold followed by below-threshold frames, the VAD fires an interrupt
exactly once, at the first frame where the elapsed above-threshold voice
duration reaches 200 ms (frame index 10, i.e. only when `k ≥ 11`), never
before, and never again during the run (the machine must pass through
`SILENCE`, and the episode's `vad_triggered` latch, before another interrupt
is possible). -/
theorem c1_vad_interrupt_exactly_once
    (w : List ℚ) (cooldown t0 : ℚ) (frames : List ℚ) (k : ℕ)
    (hcd : cooldown ≤ t0)
    (habove : ∀ i, i < k → i < frames.length → thresholdTrace w frames i < frames.getD i 0)
    (hbelow : ∀ i, k ≤ i → i < frames.length → frames.getD i 0 < thresholdTrace w frames i) :
    (vadRun { vadState := VAD_SILENCE, voiceStartTime := 0, audioLevels := w,
              vadTriggered := false, speaking := true,
              greetingCooldownUntil := cooldown } t0 frames).2
      = (List.range frames.length).map (fun i => decide (i = 10 ∧ 10 < k)) := by
  have hAB : frames.take k ++ frames.drop k = frames := List.take_append_drop k frames
  set s0 : VadState := { vadState := VAD_SILENCE, voiceStartTime := 0, audioLevels := w, vadTriggered := false, speaking := true, greetingCooldownUntil := cooldown } with hs0
  have hAlen : (frames.take k).length = min k frames.length := List.length_take k frames
  have hBlen : (frames.drop k).length = frames.length - k := List.length_drop k frames
  have hAthr : ∀ i < (frames.take k).length,
      thresholdTrace s0.audioLevels (frames.take k) i < (frames.take k).getD i 0 := by
    intro i hi
    have hik : i < k := by omega
    have hif : i < frames.length := by omega
    have h1 : (frames.take k).getD i 0 = frames.getD i 0 := by
      simp [List.getD, List.getElem?_take, hik]
    have h2 : thresholdTrace s0.audioLevels (frames.take k) i = thresholdTrace w frames i := by
      show thresholdTrace w (frames.take k) i = thresholdTrace w frames i
      unfold thresholdTrace
      rw [List.take_take]
      have hmin : min (i + 1) k = i + 1 := by omega
      rw [hmin]
    rw [h1, h2]
    exact habove i hik hif
  have hA := vadRun_above (frames.take k) s0 t0 rfl rfl rfl hcd hAthr
  have hs1w : (vadRun s0 t0 (frames.take k)).1.audioLevels
      = List.foldl pushLevel w (frames.take k) := by
    rw [vadRun_audioLevels]
  have hBthr : ∀ i < (frames.drop k).length,
      (frames.drop k).getD i 0
        < thresholdTrace ((vadRun s0 t0 (frames.take k)).1.audioLevels) (frames.drop k) i := by
    intro i hi
    have hki : k + i < frames.length := by omega
    have h1 : (frames.drop k).getD i 0 = frames.getD (k + i) 0 := by
      simp [List.getD, List.getElem?_drop]
    have h2 : thresholdTrace ((vadRun s0 t0 (frames.take k)).1.audioLevels) (frames.drop k) i
        = thresholdTrace w frames (k + i) := by
      rw [hs1w]
      unfold thresholdTrace
      rw [← List.foldl_append]
      congr 1
      have hsum : k + i + 1 = k + (i + 1) := by omega
      have harr : frames.take (k + (i + 1)) = frames.take k ++ (frames.drop k).take (i + 1) :=
        List.take_add frames k (i + 1)
      rw [hsum, harr]
    rw [h1, h2]
    exact hbelow (k + i) (by omega) hki
  rcases Nat.lt_or_ge 10 (frames.take k).length with h10 | h10
  · -- the above-run is long enough: the interrupt fires at index 10
    have hk : 10 < k := by omega
    have hsp := hA.2.2 h10
    have hB := (vadRun_not_speaking (frames.drop k)
      (vadRun s0 t0 (frames.take k)).1
      (t0 + ((frames.take k).length : ℚ) * VAD_CHUNK_DURATION) hsp).1
    conv_lhs => rw [← hAB]
    rw [vadRun_append]
    simp only []
    rw [hA.1, hB]
    have hlen : (frames.take k).length + (frames.drop k).length = frames.length := by omega
    rw [range_map_append_replicate (fun i => decide (i = 10)) _ _
      (fun i hi => decide_eq_false (by omega)), hlen]
    congr 1
    funext i
    exact decide_eq_decide.mpr (by omega)
  · -- the above-run is too short: no interrupt anywhere
    have hstate := hA.2.1 h10
    have hB := vadRun_below (frames.drop k) (vadRun s0 t0 (frames.take k)).1
      (t0 + ((frames.take k).length : ℚ) * VAD_CHUNK_DURATION) hstate hBthr
    conv_lhs => rw [← hAB]
    rw [vadRun_append]
    simp only []
    rw [hA.1, hB]
    have hlen : (frames.take k).length + (frames.drop k).length = frames.length := by omega
    rw [range_map_false (fun i => decide (i = 10)) _
      (fun i hi => decide_eq_false (by omega))]
    rw [← List.replicate_add, hlen]
    symm
    apply range_map_false
    intro i hi
    exact decide_eq_false (by omega)

/-- Witness for C1: starting from an empty window (threshold 500), twelve
20 ms frames of RMS 600 followed by three of RMS 100 fire the interrupt
exactly once, at frame index 10. -/
theorem c1_witness :
    (vadRun { vadState := VAD_SILENCE, voiceStartTime := 0, audioLevels := [],
              vadTriggered := false, speaking := true,
              greetingCooldownUntil := 0 } 0
        (List.replicate 12 (600 : ℚ) ++ List.replicate 3 100)).2
      = (List.range 15).map (fun i => decide (i = 10 ∧ 10 < 12)) :=
  c1_vad_interrupt_exactly_once [] 0 0 (List.replicate 12 (600 : ℚ) ++ List.replicate 3 100) 12
    (by decide) (by decide) (by decide)

/-! ### Turn controller (`_stt_loop` and `silence_checker` in `pipeline.py`)

The asynchronous `_stt_loop` (pipeline.py lines 473-699) is embedded as a
sequential event machine: a `fragment` event is one iteration of the
`async for` over STT events (with the classifier's outcome and the agent's
response for that iteration supplied as oracle inputs, since both are
external calls), and a `tick` event is one 300 ms iteration of
`silence_checker`.  These are the only mid-call events: `_tts_loop`
(pipeline.py lines 701-706) iterates `self.tts.receive_events()`, a
session-long stream, so its trailing `self._speaking = False` (line 706) runs
only at session teardown — after `process_audio`'s cleanup (lines 465-469)
has awaited `stt_task`, whose `finally` block already cancelled
`silence_checker`.  Mid-call, `self._speaking` is cleared only by the VAD
interrupt (line 411) and the fragment interrupt (line 656); no assignment
marks an utterance's playback draining. -/

def SILENCE_FALLBACK_DELAY : ℚ := mkRat 6 5

def MAX_BUFFER_AGE : ℚ := mkRat 5 2

def SHORT_INPUT_THRESHOLD : ℕ := 4

def SHORT_INPUT_EOT_THRESHOLD : ℚ := mkRat 3 20

def NO_INPUT_TIMEOUT : ℚ := 5

/-- `TurnDetector.EOT_THRESHOLD = 0.30` (turn_detector.py line 44). -/
def EOT_THRESHOLD : ℚ := mkRat 3 10

/-- `SILENCE_PATTERNS` (pipeline.py lines 496-509). -/
def SILENCE_PATTERNS : List String :=
  ["[BLANK_AUDIO]", "[BLANK AUDIO]", "[ Silence ]", "[Silence]", "[ silence ]", "[silence]",
   "[ Pause ]", "[Pause]", "...", "(silence)", "(no speech)", "[inaudible]"]

/-- `any(pattern.lower() in transcript.lower() for pattern in SILENCE_PATTERNS)`
(pipeline.py line 641). -/
def isSilenceTranscript (transcript : String) : Bool :=
  SILENCE_PATTERNS.any (fun pattern => pySubstr (pyLower pattern) (pyLower transcript))

/-- `len(combined_text.split())` (pipeline.py line 670). -/
def wordCount (s : String) : ℕ := (pyWords s).length

/-- `SHORT_INPUT_EOT_THRESHOLD if word_count <= SHORT_INPUT_THRESHOLD else
EOT_THRESHOLD` (pipeline.py lines 677-678). -/
def effectiveEotThreshold (wc : ℕ) : ℚ :=
  if wc ≤ SHORT_INPUT_THRESHOLD then SHORT_INPUT_EOT_THRESHOLD else EOT_THRESHOLD

/-- The mutable state of `_stt_loop` / `silence_checker` that the claims are
about: the turn buffer and its timestamps, the `_speaking` flag, the greeting
echo cooldown deadline, and the no-input watchdog bookkeeping. -/
structure TurnState where
  turnBuffer : List String
  lastTranscriptTime : ℚ
  bufferStartTime : ℚ
  speaking : Bool
  greetingCooldownUntil : ℚ
  lastAgentSpokeTime : ℚ
  waitingForResponse : Bool
  noInputTriggered : Bool
  deriving Repr, DecidableEq

def followupMessage : String := "Hey, are you still there?"

/-- `process_buffered_turn` (pipeline.py lines 512-577) on a non-followup
call: join the buffer with single spaces, clear it, invoke the agent.  `resp`
is the agent's response; `""` models an empty response or a caught agent
exception, either of which skips the speaking/TTS block. -/
def process_buffered_turn (s : TurnState) (resp : String) : TurnState × Option String :=
  if s.turnBuffer.isEmpty then (s, none)
  else if resp = "" then
    ({ s with turnBuffer := [], lastTranscriptTime := 0, bufferStartTime := 0 },
      some (joinSpace s.turnBuffer))
  else
    ({ s with turnBuffer := [], lastTranscriptTime := 0, bufferStartTime := 0, speaking := true, lastAgentSpokeTime := 0, waitingForResponse := true, noInputTriggered := false },
      some (joinSpace s.turnBuffer))

/-- Buffer update on an accepted fragment (pipeline.py lines 651-666): while
the agent is speaking the interrupt path replaces the buffer with the new
fragment; otherwise the fragment is appended (recording the buffer start
for a previously empty buffer). -/
def bufferFragment (s : TurnState) (t : ℚ) (transcript : String) : TurnState :=
  if s.speaking then
    { s with speaking := false, turnBuffer := [transcript], lastTranscriptTime := t, bufferStartTime := t }
  else if s.turnBuffer.isEmpty then
    { s with turnBuffer := s.turnBuffer ++ [transcript], lastTranscriptTime := t, bufferStartTime := t }
  else
    { s with turnBuffer := s.turnBuffer ++ [transcript], lastTranscriptTime := t }

/-- One iteration of the `async for` body of `_stt_loop` (pipeline.py lines
634-693) on a finalized STT transcript arriving at time `t`.  `eot` is the
outcome of `self._turn_detector.predict_eot(combined_text)`: the classifier
is an external ML model, so its result — or the exception it raises — is an
oracle input.  An `Except.error` propagates out of the loop body (there is no
handler around the call). -/
def sttFragmentStep (s : TurnState) (t : ℚ) (eventTranscript : String)
    (eot : Except Unit ℚ) (resp : String) : Except Unit (TurnState × Option String) :=
  if pyStrip eventTranscript = "" then Except.ok (s, none)
  else if isSilenceTranscript (pyStrip eventTranscript) then Except.ok (s, none)
  else if s.greetingCooldownUntil > 0 ∧ t < s.greetingCooldownUntil then Except.ok (s, none)
  else
    match eot with
    | Except.error e => Except.error e
    | Except.ok eotProb =>
      if effectiveEotThreshold
          (wordCount (joinSpace (bufferFragment s t (pyStrip eventTranscript)).turnBuffer))
          ≤ eotProb then
        Except.ok (process_buffered_turn
          { bufferFragment s t (pyStrip eventTranscript) with waitingForResponse := false, noInputTriggered := false } resp)
      else
        Except.ok
          ({ bufferFragment s t (pyStrip eventTranscript) with waitingForResponse := false, noInputTriggered := false },
            none)

/-- One 300 ms iteration of `silence_checker` (pipeline.py lines 584-628) at
time `t`: silence fallback, then buffer-age fallback, then the no-input
("are you there?") watchdog.  Returns the new state, the committed turn (if
any) and the follow-up utterance (if fired). -/
def silence_checker_tick (s : TurnState) (t : ℚ) (resp : String) :
    TurnState × Option String × Option String :=
  if ¬ s.turnBuffer.isEmpty ∧ s.lastTranscriptTime > 0 then
    if t - s.lastTranscriptTime ≥ SILENCE_FALLBACK_DELAY then
      ((process_buffered_turn s resp).1, (process_buffered_turn s resp).2, none)
    else if (if s.bufferStartTime > 0 then t - s.bufferStartTime else 0) ≥ MAX_BUFFER_AGE then
      ((process_buffered_turn s resp).1, (process_buffered_turn s resp).2, none)
    else (s, none, none)
  else if s.waitingForResponse ∧ ¬ s.speaking ∧ ¬ s.noInputTriggered ∧ s.turnBuffer.isEmpty then
    if s.lastAgentSpokeTime = 0 then ({ s with lastAgentSpokeTime := t }, none, none)
    else if t - s.lastAgentSpokeTime ≥ NO_INPUT_TIMEOUT then
      ({ s with noInputTriggered := true, speaking := true, lastAgentSpokeTime := 0 },
        none, some followupMessage)
    else (s, none, none)
  else (s, none, none)

/-- One observable mid-call event of the sequential trace of a session
(there is no playback-drained event: see the section comment). -/
inductive PipeEvent where
  | fragment (t : ℚ) (transcript : String) (eot : Except Unit ℚ) (resp : String)
  | tick (t : ℚ) (resp : String)
  deriving Repr

/-- One step of the traced loop: the committed turn and the timestamped
follow-up (if any). -/
def pipeStep (s : TurnState) :
    PipeEvent → Except Unit (TurnState × Option String × Option (ℚ × String))
  | PipeEvent.fragment t tr eot resp =>
    match sttFragmentStep s t tr eot resp with
    | Except.error e => Except.error e
    | Except.ok p => Except.ok (p.1, p.2, none)
  | PipeEvent.tick t resp =>
    Except.ok ((silence_checker_tick s t resp).1, (silence_checker_tick s t resp).2.1,
      ((silence_checker_tick s t resp).2.2).map (fun m => (t, m)))

/-- Run the loop over an event trace, collecting committed turns and
follow-ups.  A classifier exception terminates the loop (the `finally` block
of `_stt_loop` then cancels `silence_checker`, so no later event is
processed). -/
def pipeRun (s : TurnState) : List PipeEvent → TurnState × List String × List (ℚ × String)
  | [] => (s, [], [])
  | ev :: evs =>
    match pipeStep s ev with
    | Except.error _ => (s, [], [])
    | Except.ok p =>
      ((pipeRun p.1 evs).1, p.2.1.toList ++ (pipeRun p.1 evs).2.1,
        p.2.2.toList ++ (pipeRun p.1 evs).2.2)

/-- The session's turn state as `_stt_loop` starts (empty buffer, nothing
committed yet), with the given greeting echo cooldown deadline. -/
def initTurnState (cooldownUntil : ℚ) : TurnState :=
  { turnBuffer := [], lastTranscriptTime := 0, bufferStartTime := 0, speaking := false, greetingCooldownUntil := cooldownUntil, lastAgentSpokeTime := 0, waitingForResponse := false, noInputTriggered := false }

/-- The buffer is never empty right after a fragment is accepted into it. -/
theorem bufferFragment_turnBuffer_ne_nil (s : TurnState) (t : ℚ) (tr : String) :
    (bufferFragment s t tr).turnBuffer ≠ [] := by
  unfold bufferFragment
  split_ifs <;> simp

/-- Committing a non-empty buffer yields exactly its single-space join. -/
theorem process_buffered_turn_snd (s : TurnState) (resp : String)
    (h : s.turnBuffer ≠ []) :
    (process_buffered_turn s resp).2 = some (joinSpace s.turnBuffer) := by
  unfold process_buffered_turn
  rw [if_neg (by simpa using h)]
  split_ifs <;> rfl

instance {ε α : Type} [DecidableEq ε] [DecidableEq α] : DecidableEq (Except ε α) := fun a b =>
  match a, b with
  | Except.error e, Except.error f =>
    if h : e = f then isTrue (by rw [h]) else isFalse (by simp [h])
  | Except.error _, Except.ok _ => isFalse (by simp)
  | Except.ok _, Except.error _ => isFalse (by simp)
  | Except.ok x, Except.ok y =>
    if h : x = y then isTrue (by rw [h]) else isFalse (by simp [h])

/-- Unfolding the fragment step on an accepted transcript when the classifier
returns a probability. -/
theorem sttFragmentStep_ok (s : TurnState) (t : ℚ) (tr : String) (p : ℚ) (resp : String)
    (h1 : ¬ pyStrip tr = "") (h2 : isSilenceTranscript (pyStrip tr) = false)
    (h3 : ¬ (s.greetingCooldownUntil > 0 ∧ t < s.greetingCooldownUntil)) :
    sttFragmentStep s t tr (Except.ok p) resp
      = if effectiveEotThreshold
            (wordCount (joinSpace (bufferFragment s t (pyStrip tr)).turnBuffer)) ≤ p then
          Except.ok (process_buffered_turn
            { bufferFragment s t (pyStrip tr) with waitingForResponse := false, noInputTriggered := false } resp)
        else
          Except.ok
            ({ bufferFragment s t (pyStrip tr) with waitingForResponse := false, noInputTriggered := false },
              none) := by
  unfold sttFragmentStep
  rw [if_neg h1, if_neg (by simp [h2]), if_neg h3]

/-- Unfolding the fragment step on an accepted transcript when the classifier
raises. -/
theorem sttFragmentStep_err (s : TurnState) (t : ℚ) (tr : String) (resp : String)
    (h1 : ¬ pyStrip tr = "") (h2 : isSilenceTranscript (pyStrip tr) = false)
    (h3 : ¬ (s.greetingCooldownUntil > 0 ∧ t < s.greetingCooldownUntil)) :
    sttFragmentStep s t tr (Except.error ()) resp = Except.error () := by
  unfold sttFragmentStep
  rw [if_neg h1, if_neg (by simp [h2]), if_neg h3]

/-! ### C2: the turn-commit rules -/

/-- Claim-side commit rule of C2 (spec 4.4): on every new fragment and every
300 ms tick, commit iff the EOT probability clears the (word-count dependent)
threshold, or, failing that, silence since the last fragment is at least
1.2 s, or, failing that, buffer age is at least 2.5 s. -/
def commitRuleSpec (eotProb : ℚ) (wc : ℕ) (silence age : ℚ) : Bool :=
  if eotProb ≥ (if wc ≤ 4 then mkRat 3 20 else mkRat 3 10) then true
  else if silence ≥ mkRat 6 5 then true
  else if age ≥ mkRat 5 2 then true
  else false

def c2State : TurnState :=
  { turnBuffer := ["please tell me more about"], lastTranscriptTime := 2, bufferStartTime := mkRat 1 10, speaking := false, greetingCooldownUntil := 0, lastAgentSpokeTime := 0, waitingForResponse := false, noInputTriggered := false }

/-- C2 is false as stated: a fragment arriving at t = 2.7 s into a buffer
started at t = 0.1 s (buffer age 2.6 s ≥ 2.5 s) with EOT probability 0 is
merely buffered by `_stt_loop` — the buffer-age rule is evaluated only by the
300 ms ticker, not on fragment arrival — although the claimed rule demands an
immediate commit. -/
theorem c2_counterexample :
    (sttFragmentStep c2State (mkRat 27 10) "that" (Except.ok 0) "ok").map Prod.snd
        = Except.ok none
      ∧ commitRuleSpec 0 (wordCount (joinSpace (c2State.turnBuffer ++ ["that"]))) 0
          (mkRat 27 10 - c2State.bufferStartTime) = true := by
  decide

/-- C2 amended: on a new fragment (accepted: non-blank, not a silence marker,
outside the cooldown) the controller commits iff the EOT probability of the
joined buffer reaches the threshold (0.15 for at most 4 buffered words, else
0.30); the silence (≥ 1.2 s) and buffer-age (≥ 2.5 s) fallbacks are evaluated
only on the 300 ms ticks, where a commit happens iff the buffer is non-empty
and one of them holds — in that order, with EOT not re-evaluated. -/
theorem c2_commit_rules_amended (s : TurnState) (t : ℚ) (tr : String) (p : ℚ) (resp : String)
    (h1 : ¬ pyStrip tr = "") (h2 : isSilenceTranscript (pyStrip tr) = false)
    (h3 : ¬ (s.greetingCooldownUntil > 0 ∧ t < s.greetingCooldownUntil)) :
    (sttFragmentStep s t tr (Except.ok p) resp).map (fun q => (q.2).isSome)
        = Except.ok (decide (effectiveEotThreshold
            (wordCount (joinSpace (bufferFragment s t (pyStrip tr)).turnBuffer)) ≤ p))
      ∧ (((silence_checker_tick s t resp).2.1).isSome = true
          ↔ (s.turnBuffer ≠ [] ∧ s.lastTranscriptTime > 0
              ∧ (SILENCE_FALLBACK_DELAY ≤ t - s.lastTranscriptTime
                  ∨ MAX_BUFFER_AGE
                      ≤ (if s.bufferStartTime > 0 then t - s.bufferStartTime else 0)))) := by
  constructor
  · rw [sttFragmentStep_ok s t tr p resp h1 h2 h3]
    split_ifs with hp
    · have hne : ({ bufferFragment s t (pyStrip tr) with waitingForResponse := false, noInputTriggered := false } : TurnState).turnBuffer ≠ [] :=
        bufferFragment_turnBuffer_ne_nil s t (pyStrip tr)
      rw [show ∀ x : TurnState × Option String, Except.map (fun q : TurnState × Option String => (q.2).isSome) (Except.ok x) = Except.ok ((x.2).isSome) from fun x => rfl]
      rw [process_buffered_turn_snd _ resp hne]
      simp [decide_eq_true hp]
    · simp [Except.map, decide_eq_false hp]
  · unfold silence_checker_tick
    split_ifs with hbuf hsil hage hwd harm hfire <;>
      simp_all [process_buffered_turn_snd, List.isEmpty_iff]

/-- Witness for C2 at a concrete accepted fragment ("yes", probability 1,
threshold 0.15) and a concrete tick of the empty-buffer state. -/
theorem c2_witness :
    (sttFragmentStep (initTurnState 0) 1 "yes" (Except.ok 1) "hello").map (fun q => (q.2).isSome)
        = Except.ok (decide (effectiveEotThreshold
            (wordCount (joinSpace (bufferFragment (initTurnState 0) 1 (pyStrip "yes")).turnBuffer)) ≤ 1))
      ∧ (((silence_checker_tick (initTurnState 0) 1 "hello").2.1).isSome = true
          ↔ ((initTurnState 0).turnBuffer ≠ [] ∧ (initTurnState 0).lastTranscriptTime > 0
              ∧ (SILENCE_FALLBACK_DELAY ≤ 1 - (initTurnState 0).lastTranscriptTime
                  ∨ MAX_BUFFER_AGE
                      ≤ (if (initTurnState 0).bufferStartTime > 0
                          then 1 - (initTurnState 0).bufferStartTime else 0)))) :=
  c2_commit_rules_amended (initTurnState 0) 1 "yes" 1 "hello" (by decide) (by decide) (by decide)

/-! ### C3: committed turns as concatenations of fragments -/

def c3Events : List PipeEvent :=
  [PipeEvent.fragment 4 "well..." (Except.ok 1) "ok", PipeEvent.fragment 5 "yes" (Except.ok 1) "ok"]

/-- C3 is false as stated: with a greeting cooldown ending at t = 3, the
fragments "well..." (t = 4) and "yes" (t = 5) both arrive after the cooldown
and before the first commit, yet the committed turn is "yes" — the fragment
"well..." is discarded because it contains the silence-marker pattern "..."
— while the claim requires the concatenation "well... yes". -/
theorem c3_counterexample :
    (pipeRun (initTurnState 3) c3Events).2.1 = ["yes"]
      ∧ ((3 : ℚ) < 4 ∧ (3 : ℚ) < 5)
      ∧ joinSpace ["well...", "yes"] = "well... yes"
      ∧ ("yes" : String) ≠ "well... yes" := by
  decide

/-- C3 amended: a committed turn is the single-space join of the turn buffer,
which accumulates exactly the stripped fragments accepted since the previous
commit or interrupt replacement: a fragment arriving while the agent is not
speaking is appended; one arriving while the agent speaks replaces the whole
buffer; whitespace-only fragments, fragments containing a silence-marker
pattern, and fragments arriving during the greeting echo cooldown are
discarded without touching the buffer. -/
theorem c3_turn_concatenation_amended (s : TurnState) (t : ℚ) (tr : String) (p : ℚ)
    (resp : String) :
    ((¬ pyStrip tr = "") → isSilenceTranscript (pyStrip tr) = false →
      (¬ (s.greetingCooldownUntil > 0 ∧ t < s.greetingCooldownUntil)) →
      ((s.speaking = false →
          (bufferFragment s t (pyStrip tr)).turnBuffer = s.turnBuffer ++ [pyStrip tr])
        ∧ (s.speaking = true → (bufferFragment s t (pyStrip tr)).turnBuffer = [pyStrip tr])
        ∧ (sttFragmentStep s t tr (Except.ok p) resp).map Prod.snd
            = Except.ok (if effectiveEotThreshold
                  (wordCount (joinSpace (bufferFragment s t (pyStrip tr)).turnBuffer)) ≤ p
                then some (joinSpace (bufferFragment s t (pyStrip tr)).turnBuffer) else none)))
    ∧ ((pyStrip tr = "" ∨ isSilenceTranscript (pyStrip tr) = true
          ∨ (s.greetingCooldownUntil > 0 ∧ t < s.greetingCooldownUntil)) →
        sttFragmentStep s t tr (Except.ok p) resp = Except.ok (s, none))
    ∧ (∀ c, (silence_checker_tick s t resp).2.1 = some c → c = joinSpace s.turnBuffer) := by
  refine ⟨fun h1 h2 h3 => ⟨fun hsp => ?_, fun hsp => ?_, ?_⟩, fun h => ?_, fun c hc => ?_⟩
  · unfold bufferFragment
    rw [if_neg (by simp [hsp])]
    split_ifs <;> rfl
  · unfold bufferFragment
    rw [if_pos (by simp [hsp])]
  · rw [sttFragmentStep_ok s t tr p resp h1 h2 h3]
    split_ifs with hp
    · have hne : ({ bufferFragment s t (pyStrip tr) with waitingForResponse := false, noInputTriggered := false } : TurnState).turnBuffer ≠ [] :=
        bufferFragment_turnBuffer_ne_nil s t (pyStrip tr)
      rw [show ∀ x : TurnState × Option String, Except.map (Prod.snd) (Except.ok x) = Except.ok x.2 from fun x => rfl]
      rw [process_buffered_turn_snd _ resp hne]
    · rfl
  · unfold sttFragmentStep
    split_ifs with a b c <;> try rfl
    rcases h with h | h | h <;> simp_all
  · unfold silence_checker_tick at hc
    unfold process_buffered_turn at hc
    split_ifs at hc <;> simp_all

/-- Witness for C3: a concrete fragment appended to the empty buffer while
the agent is silent, and the tick-commit value equation on a concrete
buffered state. -/
theorem c3_witness :
    (bufferFragment (initTurnState 0) 2 (pyStrip "hello there")).turnBuffer
        = (initTurnState 0).turnBuffer ++ [pyStrip "hello there"]
      ∧ ∀ c, (silence_checker_tick (initTurnState 0) 2 "ok").2.1 = some c
          → c = joinSpace (initTurnState 0).turnBuffer :=
  ⟨((c3_turn_concatenation_amended (initTurnState 0) 2 "hello there" 1 "ok").1
      (by decide) (by decide) (by decide)).1 rfl,
    (c3_turn_concatenation_amended (initTurnState 0) 2 "hello there" 1 "ok").2.2⟩

/-! ### C6: a classifier exception aborts the STT loop -/

def c6Events (e : Except Unit ℚ) : List PipeEvent :=
  [PipeEvent.fragment 1 "hello there my friend" e "ok", PipeEvent.tick 3 "ok"]

/-- C6 is false as stated: on the same trace — fragment at t = 1, silence
tick at t = 3 — a classifier that returns probability 0 leads to a silence
fallback commit, but a classifier that raises terminates `_stt_loop` before
the fragment is processed (and `silence_checker` is cancelled), so nothing is
ever committed: the failure is not treated as probability 0 and it does abort
processing. -/
theorem c6_counterexample :
    (pipeRun (initTurnState 0) (c6Events (Except.error ()))).2.1 = []
      ∧ (pipeRun (initTurnState 0) (c6Events (Except.ok 0))).2.1 = ["hello there my friend"]
      ∧ sttFragmentStep (initTurnState 0) 1 "hello there my friend" (Except.error ()) "ok"
          = Except.error () := by
  decide

/-- C6 amended: when the EOT classifier raises while evaluating an accepted
fragment, the exception propagates out of the `async for` body: the fragment
step yields the error (no buffering, no commit), and the whole remaining
trace — including every later silence/age tick — goes unprocessed. -/
theorem c6_eot_failure_amended (s : TurnState) (t : ℚ) (tr : String) (resp : String)
    (evs : List PipeEvent)
    (h1 : ¬ pyStrip tr = "") (h2 : isSilenceTranscript (pyStrip tr) = false)
    (h3 : ¬ (s.greetingCooldownUntil > 0 ∧ t < s.greetingCooldownUntil)) :
    sttFragmentStep s t tr (Except.error ()) resp = Except.error ()
      ∧ pipeRun s (PipeEvent.fragment t tr (Except.error ()) resp :: evs) = (s, [], []) := by
  have hstep := sttFragmentStep_err s t tr resp h1 h2 h3
  refine ⟨hstep, ?_⟩
  simp only [pipeRun, pipeStep, hstep]

/-- Witness for C6 at a concrete fragment and trace. -/
theorem c6_witness :
    sttFragmentStep (initTurnState 0) 2 "okay" (Except.error ()) "r" = Except.error ()
      ∧ pipeRun (initTurnState 0)
          (PipeEvent.fragment 2 "okay" (Except.error ()) "r" :: [PipeEvent.tick 4 "r"])
        = (initTurnState 0, [], []) :=
  c6_eot_failure_amended (initTurnState 0) 2 "okay" "r" [PipeEvent.tick 4 "r"]
    (by decide) (by decide) (by decide)

/-! ### C4: the no-input follow-up watchdog -/

/-- Arming tick: the first `silence_checker` iteration that observes
`speaking=false` (a state reached mid-call only through the interrupt paths)
only records the current time — the 5 s timer starts at this tick. -/
theorem tick_arm (s : TurnState) (t : ℚ) (resp : String)
    (hw : s.waitingForResponse = true) (hsp : s.speaking = false)
    (htr : s.noInputTriggered = false) (hbuf : s.turnBuffer = [])
    (ha : s.lastAgentSpokeTime = 0) :
    silence_checker_tick s t resp = ({ s with lastAgentSpokeTime := t }, none, none) := by
  unfold silence_checker_tick
  rw [if_neg (by simp [hbuf]), if_pos ⟨by simp [hw], by simp [hsp], by simp [htr], by simp [hbuf]⟩,
    if_pos ha]

/-- Armed tick before the timeout: no-op. -/
theorem tick_hold (s : TurnState) (t : ℚ) (resp : String) (a : ℚ)
    (hw : s.waitingForResponse = true) (hsp : s.speaking = false)
    (htr : s.noInputTriggered = false) (hbuf : s.turnBuffer = [])
    (ha : s.lastAgentSpokeTime = a) (ha0 : a ≠ 0) (hlt : t - a < NO_INPUT_TIMEOUT) :
    silence_checker_tick s t resp = (s, none, none) := by
  unfold silence_checker_tick
  rw [if_neg (by simp [hbuf]), if_pos ⟨by simp [hw], by simp [hsp], by simp [htr], by simp [hbuf]⟩,
    if_neg (by rw [ha]; exact ha0), ha, if_neg (not_le.mpr hlt)]

/-- Armed tick at or past the timeout: the follow-up fires once, latching
`no_input_fallback_triggered` and restoring `speaking`. -/
theorem tick_fire (s : TurnState) (t : ℚ) (resp : String) (a : ℚ)
    (hw : s.waitingForResponse = true) (hsp : s.speaking = false)
    (htr : s.noInputTriggered = false) (hbuf : s.turnBuffer = [])
    (ha : s.lastAgentSpokeTime = a) (ha0 : a ≠ 0) (hge : NO_INPUT_TIMEOUT ≤ t - a) :
    silence_checker_tick s t resp
      = ({ s with noInputTriggered := true, speaking := true, lastAgentSpokeTime := 0 },
          none, some followupMessage) := by
  unfold silence_checker_tick
  rw [if_neg (by simp [hbuf]), if_pos ⟨by simp [hw], by simp [hsp], by simp [htr], by simp [hbuf]⟩,
    if_neg (by rw [ha]; exact ha0), ha, if_pos hge]

/-- Once the follow-up latch (or renewed speech) is set and the buffer is
empty, ticks are no-ops. -/
theorem tick_blocked (s : TurnState) (t : ℚ) (resp : String)
    (h : s.noInputTriggered = true ∨ s.speaking = true) (hbuf : s.turnBuffer = []) :
    silence_checker_tick s t resp = (s, none, none) := by
  unfold silence_checker_tick
  rw [if_neg (by simp [hbuf]), if_neg ?hcond]
  case hcond =>
    rintro ⟨-, h2, h3, -⟩
    rcases h with h | h
    · simp [h] at h3
    · simp [h] at h2

/-- After the follow-up fired, any further ticks leave the state unchanged
and emit nothing: no second follow-up until the user responds. -/
theorem blockedRun (ticks : List ℚ) : ∀ (s : TurnState) (resp : String),
    s.turnBuffer = [] → (s.noInputTriggered = true ∨ s.speaking = true) →
    pipeRun s (ticks.map (fun τ => PipeEvent.tick τ resp)) = (s, [], []) := by
  induction ticks with
  | nil => intro s resp _ _; rfl
  | cons τ rest ih =>
    intro s resp hbuf h
    have hstep := tick_blocked s τ resp h hbuf
    simp only [List.map_cons, pipeRun, pipeStep, hstep]
    rw [ih s resp hbuf h]
    rfl

/-- From an armed watchdog (timer base `a ≠ 0`), a run of ticks emits the
follow-up exactly at the first tick at least 5 s past `a` — and only there. -/
theorem armedRun (ticks : List ℚ) : ∀ (s : TurnState) (resp : String) (a : ℚ),
    s.waitingForResponse = true → s.speaking = false → s.noInputTriggered = false →
    s.turnBuffer = [] → s.lastAgentSpokeTime = a → a ≠ 0 →
    (pipeRun s (ticks.map (fun τ => PipeEvent.tick τ resp))).2.2
      = ((ticks.find? (fun τ => decide (NO_INPUT_TIMEOUT ≤ τ - a))).map
          (fun τ => (τ, followupMessage))).toList := by
  induction ticks with
  | nil => intro s resp a _ _ _ _ _ _; rfl
  | cons τ rest ih =>
    intro s resp a hw hsp htr hbuf ha ha0
    by_cases hτ : NO_INPUT_TIMEOUT ≤ τ - a
    · have hstep := tick_fire s τ resp a hw hsp htr hbuf ha ha0 hτ
      have hblocked := blockedRun rest
        ({ s with noInputTriggered := true, speaking := true, lastAgentSpokeTime := 0 }) resp
        hbuf (Or.inl rfl)
      simp only [List.map_cons, pipeRun, pipeStep, hstep, hblocked]
      rw [List.find?_cons_of_pos _ (by simpa using hτ)]
      rfl
    · have hstep := tick_hold s τ resp a hw hsp htr hbuf ha ha0 (not_le.mp hτ)
      simp only [List.map_cons, pipeRun, pipeStep, hstep]
      rw [ih s resp a hw hsp htr hbuf ha ha0]
      rw [List.find?_cons_of_neg _ (by simpa using hτ)]
      rfl

/-- `gapChain gap prev l` holds when `l` is strictly increasing starting
above `prev` with consecutive gaps (including `prev` to the head) at most
`gap` — the shape of a `await asyncio.sleep(0.3)` tick grid. -/
def gapChain (gap : ℚ) : ℚ → List ℚ → Bool
  | _, [] => true
  | prev, x :: rest => (decide (prev < x) && decide (x - prev ≤ gap)) && gapChain gap x rest

/-- In a gap-bounded increasing tick sequence that eventually reaches `c`
and starts below it, the first tick at or past `c` lies within one gap of
`c`. -/
theorem chain_first_ge (c gap : ℚ) : ∀ (l : List ℚ) (prev : ℚ), prev < c →
    gapChain gap prev l = true →
    (∃ τ ∈ l, c ≤ τ) →
    ∃ τf, l.find? (fun τ => decide (c ≤ τ)) = some τf ∧ c ≤ τf ∧ τf < c + gap := by
  intro l
  induction l with
  | nil =>
    intro prev _ _ hex
    simp at hex
  | cons h t ih =>
    intro prev hprev hch hex
    rw [gapChain] at hch
    simp only [Bool.and_eq_true, decide_eq_true_eq] at hch
    obtain ⟨⟨hlt, hgap⟩, hch'⟩ := hch
    by_cases hc : c ≤ h
    · refine ⟨h, ?_, hc, by linarith⟩
      rw [List.find?_cons_of_pos _ (by simpa using hc)]
    · obtain ⟨τ, hmem, hcτ⟩ := hex
      have hmem' : τ ∈ t := by
        rcases List.mem_cons.mp hmem with rfl | hmem'
        · exact absurd hcτ hc
        · exact hmem'
      obtain ⟨τf, hfind, h1, h2⟩ := ih h (not_le.mp hc) hch' ⟨τ, hmem', hcτ⟩
      refine ⟨τf, ?_, h1, h2⟩
      rw [List.find?_cons_of_neg _ (by simpa using hc)]
      exact hfind

/-- The session state after the agent's turn was committed and handed to
TTS: `waiting_for_user_response=True`, `speaking=True`, empty buffer,
watchdog not yet latched.  The state is unchanged when the utterance's
playback drains at t0, since no code path clears `_speaking` then. -/
def c4State : TurnState :=
  { turnBuffer := [], lastTranscriptTime := 0, bufferStartTime := 0, speaking := true, greetingCooldownUntil := 0, lastAgentSpokeTime := 0, waitingForResponse := true, noInputTriggered := false }

/-- The 300 ms `silence_checker` ticks after the one at 1.29 s: 1.59, 1.89,
..., 6.39 s. -/
def c4TicksTail : List ℚ :=
  [mkRat 159 100, mkRat 189 100, mkRat 219 100, mkRat 249 100, mkRat 279 100,
   mkRat 309 100, mkRat 339 100, mkRat 369 100, mkRat 399 100, mkRat 429 100,
   mkRat 459 100, mkRat 489 100, mkRat 519 100, mkRat 549 100, mkRat 579 100,
   mkRat 609 100, mkRat 639 100]

/-- A valid 300 ms tick grid relative to TTS finishing at t0 = 1 s. -/
def c4Ticks : List ℚ := mkRat 129 100 :: c4TicksTail

/-- Counterexample to C4.  The agent's utterance finishes playing at
t0 = 1 s (no state change occurs in the code at that instant) and
`silence_checker` ticks every ≤ 300 ms from t0 on (certified by the
`gapChain` conjunct), with the grid extending past t0 + 5 s + 300 ms; no
fragment ever arrives.  The claim requires exactly one follow-up at
t0 + 5 s ± 300 ms, but the run emits none at all: every tick still sees
`speaking == True` — nothing clears `_speaking` when playback drains — so
the watchdog never arms. -/
theorem c4_counterexample :
    (pipeRun c4State (c4Ticks.map (fun τ => PipeEvent.tick τ ""))).2.2 = []
      ∧ gapChain (mkRat 3 10) 1 c4Ticks = true
      ∧ (c4Ticks.any (fun τ => decide (1 + NO_INPUT_TIMEOUT + mkRat 3 10 < τ))) = true
      ∧ ((pipeRun c4State (c4Ticks.map (fun τ => PipeEvent.tick τ ""))).2.2).length ≠ 1 := by
  decide

/-- C4 (amended).  Mid-call, `self._speaking = False` is assigned only on the
VAD interrupt (pipeline.py line 411) and the fragment interrupt (line 656);
the assignment at the end of `_tts_loop` (line 706) runs only at session
teardown, after `silence_checker` is already cancelled.  So when the agent
finishes TTS playback and no transcript fragment arrives, the turn state
keeps `speaking=True` with an empty buffer, and from any such state every
`silence_checker` tick is a no-op: the no-input watchdog never arms, the
follow-up "Hey, are you still there?" is never emitted, and nothing is
committed.  (The claim's arming condition — only while `speaking=false` —
is accurate, but that state is unreachable at playback end; the watchdog can
fire only after an interrupt has cleared `speaking`.) -/
theorem c4_no_input_watchdog_amended (s : TurnState) (ticks : List ℚ)
    (resp : String) (hsp : s.speaking = true) (hbuf : s.turnBuffer = []) :
    pipeRun s (ticks.map (fun τ => PipeEvent.tick τ resp)) = (s, [], []) :=
  blockedRun ticks s resp hbuf (Or.inr hsp)

/-- Concrete instance of the amended C4 theorem: on the 1.29 s + 0.3k tick
grid after the agent finishes speaking at 1 s, no follow-up, no commit, no
state change. -/
theorem c4_witness :
    pipeRun c4State (c4Ticks.map (fun τ => PipeEvent.tick τ "")) = (c4State, [], []) :=
  c4_no_input_watchdog_amended c4State c4Ticks "" rfl rfl

/-! ### C7: the agent invoker and the 30 s runtime timeout (`server.py`)

`agent_handler` (server.py lines 311-472, LangGraph branch with
`call_session = None`): the greeting gate, thread creation, the
`asyncio.wait_for(langgraph_client.runs.wait(...), timeout=30)` call, and the
response-extraction / hangup-scheduling epilogue.  The external runtime's
reply is a parameter (`RunsWaitResult`); runtime interactions are collected
as an effect list.  Elided, as none touches the timeout path or the session
state: the first-message context prefix on `input_text` (it only rewrites the
text argument of `runs.wait`), the `config_metadata` dictionary, list-typed
message content blocks, and the mutation of the healthcare context object on
`end_call` tool calls (`ended` abstracts "the agent invoked end_call"). -/

def GREETING_DURATION : ℚ := 4

def AGENT_TIMEOUT : ℚ := 30

def agentApology : String := "I'm sorry, I had a brief hiccup. Could you say that again?"

def GOODBYE_PHRASES : List String :=
  ["take care", "have a great day", "goodbye", "bye bye", "bye!",
   "talk to you", "talk soon", "speak soon", "thanks for your time",
   "have a good one", "catch you later", "later!", "cheers!"]

/-- `should_end_call` (server.py lines 282-295). -/
def should_end_call (ctxEnded : Bool) (response : String) : Bool :=
  if ctxEnded then true
  else if response = "" then false
  else GOODBYE_PHRASES.any (fun phrase => pySubstr phrase (pyLower response))

/-- The parts of `session_data` that `agent_handler` reads or writes. -/
structure SessionData where
  callStartTime : ℚ
  greetingPlayed : Bool
  threadId : Option String
  toNumber : Option String
  shouldHangup : Bool
  deriving Repr, DecidableEq

/-- A message of the `runs.wait` result (string content only). -/
structure AgentMsg where
  type : String
  content : String
  deriving Repr, DecidableEq

/-- The outcome of `asyncio.wait_for(langgraph_client.runs.wait(...), 30)`. -/
inductive RunsWaitResult where
  | timeout
  | completed (messages : List AgentMsg)
  deriving Repr, DecidableEq

/-- Interactions of `agent_handler` with the world outside `session_data`. -/
inductive AgentEffect where
  | threadsCreate (phone : Option String)
  | runsWait (threadId agentId inputText : String)
  | hangupScheduled (delay : ℚ)
  deriving Repr, DecidableEq

/-- Response extraction (server.py lines 404-418): the last message of type
"ai" whose string content is nonempty after stripping; `""` if none. -/
def extract_response (messages : List AgentMsg) : String :=
  match messages.reverse.find? (fun m => m.type == "ai" && pyStrip m.content != "") with
  | some m => m.content
  | none => ""

/-- `agent_handler` (server.py lines 311-472). -/
def agent_handler (s : SessionData) (now : ℚ) (text newThreadId : String)
    (healthcareMode ended : Bool) (runResult : RunsWaitResult) :
    SessionData × Option String × List AgentEffect :=
  if now - s.callStartTime < GREETING_DURATION then (s, none, [])
  else
    let s1 : SessionData := { s with greetingPlayed := true }
    let tid := s.threadId.getD newThreadId
    let createFx : List AgentEffect :=
      if s.threadId = none then [AgentEffect.threadsCreate s.toNumber] else []
    let s2 : SessionData := { s1 with threadId := some tid }
    let agentId := if healthcareMode then "healthcare_agent" else "sales_agent"
    let fx := createFx ++ [AgentEffect.runsWait tid agentId text]
    match runResult with
    | RunsWaitResult.timeout => (s2, some agentApology, fx)
    | RunsWaitResult.completed msgs =>
      let response := extract_response msgs
      if response != "" && (ended || should_end_call ended response) then
        ({ s2 with shouldHangup := true }, some response,
          fx ++ [AgentEffect.hangupScheduled
            (max 3 ((wordCount response : ℚ) * mkRat 2 5) + 1)])
      else (s2, some response, fx)

/-- C7: past the greeting gate, when `runs.wait` hits the 30 s timeout the
handler returns exactly the canned apology, schedules no hangup (the
`should_hangup` flag is untouched), and its last runtime interaction is the
single timed-out `runs.wait` — nothing is committed to the thread afterwards. -/
theorem c7_agent_timeout_canned_apology (s : SessionData) (now : ℚ)
    (text newThreadId : String) (healthcareMode ended : Bool)
    (hg : GREETING_DURATION ≤ now - s.callStartTime) :
    (agent_handler s now text newThreadId healthcareMode ended RunsWaitResult.timeout).2.1
        = some agentApology
    ∧ (agent_handler s now text newThreadId healthcareMode ended
        RunsWaitResult.timeout).1.shouldHangup = s.shouldHangup
    ∧ (agent_handler s now text newThreadId healthcareMode ended
        RunsWaitResult.timeout).2.2
        = (if s.threadId = none then [AgentEffect.threadsCreate s.toNumber] else [])
            ++ [AgentEffect.runsWait (s.threadId.getD newThreadId)
                  (if healthcareMode then "healthcare_agent" else "sales_agent") text] := by
  unfold agent_handler
  rw [if_neg (not_lt.mpr hg)]
  exact ⟨rfl, rfl, rfl⟩

def c7Session : SessionData :=
  { callStartTime := 0, greetingPlayed := false, threadId := none, toNumber := some "+15551234567", shouldHangup := false }

/-- Concrete instance of C7: a fresh session, input 10 s into the call. -/
theorem c7_witness :
    (agent_handler c7Session 10 "hello" "thread-1" false false RunsWaitResult.timeout).2.1
        = some agentApology
    ∧ (agent_handler c7Session 10 "hello" "thread-1" false false
        RunsWaitResult.timeout).1.shouldHangup = c7Session.shouldHangup
    ∧ (agent_handler c7Session 10 "hello" "thread-1" false false
        RunsWaitResult.timeout).2.2
        = (if c7Session.threadId = none
            then [AgentEffect.threadsCreate c7Session.toNumber] else [])
            ++ [AgentEffect.runsWait (c7Session.threadId.getD "thread-1")
                  (if (false : Bool) then "healthcare_agent" else "sales_agent") "hello"] :=
  c7_agent_timeout_canned_apology c7Session 10 "hello" "thread-1" false false (by decide)

/-! ### C8: the call-recovery retry policy (`telephony/call_recovery.py`)

`_should_retry` (lines 187-220) and `_schedule_retry` (lines 256-274) of
`CallRecoveryHandler`.  `retryCounts` models the `_retry_counts` dict with
the `.get(lead_id, 0)` default built in; wall-clock `datetime.utcnow()` is
the ℚ parameter `now`.  `_schedule_retry`'s side effects (`LeadRepository`
status update, the `on_retry_scheduled` callback) are elided. -/

inductive DisconnectReason where
  | NORMAL_END
  | WEBSOCKET_DISCONNECT
  | TWILIO_ERROR
  | TIMEOUT
  | NETWORK_ERROR
  | UNKNOWN
  deriving Repr, DecidableEq

/-- The fields of `CallState` that the retry policy reads.
`duration_before_disconnect` is the property of the same name (whole seconds,
a Python `int`). -/
structure CallState where
  lead_id : String
  duration_before_disconnect : ℤ
  outcome_so_far : Option String
  deriving Repr, DecidableEq

def MIN_DURATION_FOR_RETRY : ℤ := 10

def RETRY_DELAY : ℚ := 300

def MAX_RETRIES : ℕ := 2

/-- `CallRecoveryHandler._should_retry` (call_recovery.py lines 187-220). -/
def should_retry (retryCounts : String → ℕ) (state : CallState)
    (reason : DisconnectReason) : Bool :=
  if reason = DisconnectReason.NORMAL_END then false
  else if state.duration_before_disconnect < MIN_DURATION_FOR_RETRY then false
  else if MAX_RETRIES ≤ retryCounts state.lead_id then false
  else if state.outcome_so_far = some "hostile" ∨ state.outcome_so_far = some "do_not_call"
      ∨ state.outcome_so_far = some "wrong_number" then false
  else if state.outcome_so_far = some "meeting_booked" then false
  else if reason = DisconnectReason.WEBSOCKET_DISCONNECT
      ∨ reason = DisconnectReason.NETWORK_ERROR
      ∨ reason = DisconnectReason.TIMEOUT then true
  else false

/-- `CallRecoveryHandler._schedule_retry` (call_recovery.py lines 256-274):
the scheduled retry time and the updated retry-count table. -/
def schedule_retry (now : ℚ) (retryCounts : String → ℕ) (state : CallState) :
    ℚ × (String → ℕ) :=
  (now + RETRY_DELAY,
   fun l => if l = state.lead_id then retryCounts state.lead_id + 1 else retryCounts l)

/-- C8: a retry is scheduled iff the disconnect cause is one of
WEBSOCKET_DISCONNECT / NETWORK_ERROR / TIMEOUT, the call lasted at least
10 s, the lead has fewer than 2 retries, and the partial outcome is none of
hostile / do_not_call / wrong_number / meeting_booked; scheduling returns
now + 300 s and increments exactly that lead's retry count. -/
theorem c8_retry_policy (now : ℚ) (rc : String → ℕ) (st : CallState)
    (reason : DisconnectReason) :
    (should_retry rc st reason = true
      ↔ ((reason = DisconnectReason.WEBSOCKET_DISCONNECT
            ∨ reason = DisconnectReason.NETWORK_ERROR
            ∨ reason = DisconnectReason.TIMEOUT)
          ∧ MIN_DURATION_FOR_RETRY ≤ st.duration_before_disconnect
          ∧ rc st.lead_id < MAX_RETRIES
          ∧ st.outcome_so_far ≠ some "hostile"
          ∧ st.outcome_so_far ≠ some "do_not_call"
          ∧ st.outcome_so_far ≠ some "wrong_number"
          ∧ st.outcome_so_far ≠ some "meeting_booked"))
    ∧ (schedule_retry now rc st).1 = now + RETRY_DELAY
    ∧ (schedule_retry now rc st).2 st.lead_id = rc st.lead_id + 1
    ∧ ∀ l, l ≠ st.lead_id → (schedule_retry now rc st).2 l = rc l := by
  refine ⟨?_, rfl, by simp [schedule_retry], ?_⟩
  · unfold should_retry
    split_ifs with h1 h2 h3 h4 h5 h6
    · simp only [false_iff]
      rintro ⟨hr | hr | hr, -⟩ <;> rw [h1] at hr <;> exact absurd hr (by simp)
    · simp only [false_iff]
      rintro ⟨-, hd, -⟩
      exact absurd hd (not_le.mpr h2)
    · simp only [false_iff]
      rintro ⟨-, -, hc, -⟩
      exact absurd hc (not_lt.mpr h3)
    · simp only [false_iff]
      rintro ⟨-, -, -, ho1, ho2, ho3, -⟩
      rcases h4 with h | h | h
      · exact ho1 h
      · exact ho2 h
      · exact ho3 h
    · simp only [false_iff]
      rintro ⟨-, -, -, -, -, -, ho4⟩
      exact ho4 h5
    · simp only [true_iff]
      refine ⟨h6, not_lt.mp h2, not_le.mp h3, ?_, ?_, ?_, ?_⟩
      · intro h; exact h4 (Or.inl h)
      · intro h; exact h4 (Or.inr (Or.inl h))
      · intro h; exact h4 (Or.inr (Or.inr h))
      · exact h5
    · simp only [false_iff]
      rintro ⟨hr, -⟩
      exact h6 hr
  · intro l hl
    simp [schedule_retry, hl]

def c8State : CallState :=
  { lead_id := "lead-1", duration_before_disconnect := 45, outcome_so_far := none }

/-- Concrete instance of C8: a 45 s call dropped by a network error with no
prior retries is retried. -/
theorem c8_witness : should_retry (fun _ => 0) c8State DisconnectReason.NETWORK_ERROR = true :=
  ((c8_retry_policy 0 (fun _ => 0) c8State DisconnectReason.NETWORK_ERROR).1).mpr
    ⟨Or.inr (Or.inl rfl), by decide, by decide, by decide, by decide, by decide, by decide⟩

/-! ### C9: the thread binder (`thread_mapping.py`)

`ThreadMappingService` over the `thread_mappings` table.  A row keeps only the
columns the claim is about (`external_id`, `external_type`, `thread_id`,
`is_active`); `call_sid`/`user_name`/timestamps/metadata updates never touch
those columns and are elided.  `str(uuid.uuid4())` is modeled as a fresh
counter `nextId` (uuid4 collisions are assumed away).  A violation of the
schema's `UNIQUE(external_id, external_type, is_active)` constraint — which
sqlite raises when `deactivate_thread` flips an active row while an inactive
row for the same key already exists — is `Except.error`; the `with
sqlite3.connect(...)` context manager rolls the transaction back, so an
erroring call leaves the table unchanged. -/

structure MapRow where
  external_id : String
  external_type : String
  thread_id : ℕ
  is_active : Bool
  deriving Repr, DecidableEq

structure MapDB where
  rows : List MapRow
  nextId : ℕ
  deriving Repr, DecidableEq

/-- The `WHERE external_id = ? AND external_type = ? AND is_active = ?`
filter. -/
def rowMatches (eid et : String) (active : Bool) (r : MapRow) : Bool :=
  r.external_id == eid && r.external_type == et && r.is_active == active

/-- `get_or_create_thread` (thread_mapping.py lines 70-138): return the
active mapping's thread id if one exists (the `UPDATE ... COALESCE` touches
only `updated_at`/`call_sid`/`user_name`), else insert a fresh one. -/
def get_or_create_thread (db : MapDB) (eid et : String) : MapDB × ℕ :=
  match db.rows.find? (rowMatches eid et true) with
  | some r => (db, r.thread_id)
  | none =>
    ({ rows := db.rows ++ [{ external_id := eid, external_type := et, thread_id := db.nextId, is_active := true }], nextId := db.nextId + 1 }, db.nextId)

/-- The effect of `SET is_active = 0` on one row. -/
def deactivateFlip (eid et : String) (r : MapRow) : MapRow :=
  if rowMatches eid et true r then { r with is_active := false } else r

/-- `deactivate_thread` (thread_mapping.py lines 222-236): flip the active
row for the key to inactive; `Bool` is `cursor.rowcount > 0`.  Flipping when
an inactive row for the key already exists violates
`UNIQUE(external_id, external_type, is_active)`. -/
def deactivate_thread (db : MapDB) (eid et : String) : Except Unit (MapDB × Bool) :=
  match db.rows.find? (rowMatches eid et true) with
  | none => Except.ok (db, false)
  | some _ =>
    if (db.rows.find? (rowMatches eid et false)).isSome then Except.error ()
    else Except.ok ({ db with rows := db.rows.map (deactivateFlip eid et) }, true)

/-- `create_new_thread_for_external` (thread_mapping.py lines 238-249). -/
def create_new_thread_for_external (db : MapDB) (eid et : String) :
    Except Unit (MapDB × ℕ) :=
  match deactivate_thread db eid et with
  | Except.error e => Except.error e
  | Except.ok p => Except.ok (get_or_create_thread p.1 eid et)

/-- The two service calls the claim quantifies over. -/
inductive MapOp where
  | getOrCreate (eid et : String)
  | forceNew (eid et : String)
  deriving Repr, DecidableEq

def mapStep (db : MapDB) : MapOp → Except Unit (MapDB × ℕ)
  | MapOp.getOrCreate eid et => Except.ok (get_or_create_thread db eid et)
  | MapOp.forceNew eid et => create_new_thread_for_external db eid et

/-- Run a call sequence, pairing each call with its returned thread id (or
the constraint violation).  An erroring call leaves the table unchanged. -/
def mapRun (db : MapDB) : List MapOp → MapDB × List (MapOp × Except Unit ℕ)
  | [] => (db, [])
  | op :: ops =>
    match mapStep db op with
    | Except.error e => ((mapRun db ops).1, (op, Except.error e) :: (mapRun db ops).2)
    | Except.ok p => ((mapRun p.1 ops).1, (op, Except.ok p.2) :: (mapRun p.1 ops).2)

/-- The thread id of the active row for a key, if any. -/
def activeId (db : MapDB) (eid et : String) : Option ℕ :=
  (db.rows.find? (rowMatches eid et true)).map MapRow.thread_id

/-- Every stored thread id was minted by the counter. -/
def dbWF (db : MapDB) : Prop := ∀ r ∈ db.rows, r.thread_id < db.nextId

/-- `find?` is unaffected by appending when it already succeeds. -/
theorem find_append_some {α : Type} (p : α → Bool) {l1 : List α} (l2 : List α) {a : α}
    (h : l1.find? p = some a) : (l1 ++ l2).find? p = some a := by
  induction l1 with
  | nil => simp at h
  | cons x xs ih =>
    cases hx : p x with
    | true =>
      rw [List.find?_cons_of_pos _ hx] at h
      rw [List.cons_append, List.find?_cons_of_pos _ hx]
      exact h
    | false =>
      rw [List.find?_cons_of_neg _ (by simp [hx])] at h
      rw [List.cons_append, List.find?_cons_of_neg _ (by simp [hx])]
      exact ih h

/-- `find?` commutes with a map that fixes hits and creates no new hits. -/
theorem find_map_invariant {α : Type} (p : α → Bool) (f : α → α)
    (hfix : ∀ r, p r = true → f r = r) (hnew : ∀ r, p r = false → p (f r) = false) :
    ∀ l : List α, (l.map f).find? p = l.find? p := by
  intro l
  induction l with
  | nil => rfl
  | cons x xs ih =>
    cases hx : p x with
    | true =>
      rw [List.map_cons, hfix x hx, List.find?_cons_of_pos _ hx,
        List.find?_cons_of_pos _ hx]
    | false =>
      rw [List.map_cons, List.find?_cons_of_neg _ (by simp [hnew x hx]),
        List.find?_cons_of_neg _ (by simp [hx])]
      exact ih

/-- `deactivateFlip` never changes a row's thread id. -/
theorem deactivateFlip_thread_id (eid et : String) (r : MapRow) :
    (deactivateFlip eid et r).thread_id = r.thread_id := by
  unfold deactivateFlip
  split_ifs <;> rfl

/-- `get_or_create_thread` preserves well-formedness, never decreases the id
counter, and returns an id below the resulting counter. -/
theorem get_or_create_wf (db : MapDB) (eid et : String) (hwf : dbWF db) :
    dbWF (get_or_create_thread db eid et).1
    ∧ db.nextId ≤ (get_or_create_thread db eid et).1.nextId
    ∧ (get_or_create_thread db eid et).2 < (get_or_create_thread db eid et).1.nextId := by
  unfold get_or_create_thread
  cases hfind : db.rows.find? (rowMatches eid et true) with
  | some r =>
    exact ⟨hwf, le_refl _, hwf r (List.mem_of_find?_eq_some hfind)⟩
  | none =>
    refine ⟨?_, Nat.le_succ _, Nat.lt_succ_self _⟩
    intro r hr
    rcases List.mem_append.mp hr with hr | hr
    · exact Nat.lt_succ_of_lt (hwf r hr)
    · simp at hr
      rw [hr]
      exact Nat.lt_succ_self db.nextId

/-- `deactivate_thread` succeeds with the same id counter, unchanged thread
ids, and preserved well-formedness. -/
theorem deactivate_wf (db : MapDB) (eid et : String) (p : MapDB × Bool)
    (h : deactivate_thread db eid et = Except.ok p) (hwf : dbWF db) :
    dbWF p.1 ∧ p.1.nextId = db.nextId := by
  unfold deactivate_thread at h
  cases hfind : db.rows.find? (rowMatches eid et true) with
  | none =>
    rw [hfind] at h
    simp only [Except.ok.injEq] at h
    rw [← h]
    exact ⟨hwf, rfl⟩
  | some r =>
    rw [hfind] at h
    by_cases hin : (db.rows.find? (rowMatches eid et false)).isSome
    · rw [if_pos hin] at h
      exact absurd h (by simp)
    · rw [if_neg hin] at h
      simp only [Except.ok.injEq] at h
      rw [← h]
      refine ⟨?_, rfl⟩
      intro r' hr'
      rcases List.mem_map.mp hr' with ⟨r0, hr0, hr0e⟩
      rw [← hr0e, deactivateFlip_thread_id]
      exact hwf r0 hr0

/-- A successful step preserves well-formedness, never decreases the id
counter, and returns an id below the resulting counter. -/
theorem mapStep_wf (db : MapDB) (op : MapOp) (p : MapDB × ℕ)
    (hstep : mapStep db op = Except.ok p) (hwf : dbWF db) :
    dbWF p.1 ∧ db.nextId ≤ p.1.nextId ∧ p.2 < p.1.nextId := by
  cases op with
  | getOrCreate eid et =>
    simp only [mapStep, Except.ok.injEq] at hstep
    rw [← hstep]
    exact get_or_create_wf db eid et hwf
  | forceNew eid et =>
    simp only [mapStep] at hstep
    unfold create_new_thread_for_external at hstep
    cases hd : deactivate_thread db eid et with
    | error e =>
      rw [hd] at hstep
      exact absurd hstep (by simp)
    | ok q =>
      rw [hd] at hstep
      simp only [Except.ok.injEq] at hstep
      obtain ⟨hwf1, hn1⟩ := deactivate_wf db eid et q hd hwf
      rw [← hstep]
      obtain ⟨h1, h2, h3⟩ := get_or_create_wf q.1 eid et hwf1
      exact ⟨h1, hn1 ▸ h2, h3⟩

/-- Along any run from a well-formed table, well-formedness persists, the id
counter never decreases, and every returned id stays below the final
counter. -/
theorem mapRun_wf (ops : List MapOp) : ∀ db : MapDB, dbWF db →
    dbWF (mapRun db ops).1 ∧ db.nextId ≤ (mapRun db ops).1.nextId
    ∧ ∀ pr ∈ (mapRun db ops).2, ∀ j, pr.2 = Except.ok j → j < (mapRun db ops).1.nextId := by
  induction ops with
  | nil =>
    intro db hwf
    exact ⟨hwf, le_refl _, by simp [mapRun]⟩
  | cons op ops ih =>
    intro db hwf
    cases hstep : mapStep db op with
    | error e =>
      obtain ⟨h1, h2, h3⟩ := ih db hwf
      simp only [mapRun, hstep]
      refine ⟨h1, h2, ?_⟩
      intro pr hpr j hj
      rcases List.mem_cons.mp hpr with rfl | hpr
      · exact absurd hj (by simp)
      · exact h3 pr hpr j hj
    | ok p =>
      obtain ⟨hw1, hn1, hr1⟩ := mapStep_wf db op p hstep hwf
      obtain ⟨h1, h2, h3⟩ := ih p.1 hw1
      simp only [mapRun, hstep]
      refine ⟨h1, le_trans hn1 h2, ?_⟩
      intro pr hpr j hj
      rcases List.mem_cons.mp hpr with rfl | hpr
      · simp only [Except.ok.injEq] at hj
        rw [← hj]
        exact lt_of_lt_of_le hr1 h2
      · exact h3 pr hpr j hj

/-- A successful `create_new_thread_for_external` always mints the current
counter value: the key's active row was just deactivated (or absent), so the
inner `get_or_create_thread` takes its INSERT branch. -/
theorem forceNew_returns_nextId (db : MapDB) (eid et : String) (p : MapDB × ℕ)
    (h : create_new_thread_for_external db eid et = Except.ok p) :
    p.2 = db.nextId := by
  unfold create_new_thread_for_external at h
  unfold deactivate_thread at h
  cases hfind : db.rows.find? (rowMatches eid et true) with
  | none =>
    rw [hfind] at h
    simp only [Except.ok.injEq] at h
    rw [← h]
    unfold get_or_create_thread
    rw [hfind]
  | some r =>
    rw [hfind] at h
    by_cases hin : (db.rows.find? (rowMatches eid et false)).isSome
    · rw [if_pos hin] at h
      exact absurd h (by simp)
    · rw [if_neg hin] at h
      simp only [Except.ok.injEq] at h
      rw [← h]
      unfold get_or_create_thread
      have hnone : (db.rows.map (deactivateFlip eid et)).find? (rowMatches eid et true) = none := by
        rw [List.find?_eq_none]
        intro x hx
        rcases List.mem_map.mp hx with ⟨r0, _, hr0e⟩
        rw [← hr0e]
        unfold deactivateFlip
        by_cases hm : rowMatches eid et true r0
        · rw [if_pos hm]
          simp [rowMatches]
        · rw [if_neg hm]
          simpa using hm
      rw [show ({ db with rows := db.rows.map (deactivateFlip eid et) } : MapDB).rows
            = db.rows.map (deactivateFlip eid et) from rfl, hnone]

/-- With an active mapping present, `get_or_create_thread` returns its id and
leaves the table unchanged. -/
theorem getOrCreate_stable (db : MapDB) (eid et : String) (v : ℕ)
    (h : activeId db eid et = some v) :
    get_or_create_thread db eid et = (db, v) := by
  unfold activeId at h
  cases hfind : db.rows.find? (rowMatches eid et true) with
  | none =>
    rw [hfind] at h
    exact absurd h (by simp)
  | some r =>
    rw [hfind] at h
    simp only [Option.map_some', Option.some.injEq] at h
    unfold get_or_create_thread
    rw [hfind]
    show (db, r.thread_id) = (db, v)
    rw [h]

/-- `get_or_create_thread` for any key preserves the active mapping of every
key. -/
theorem activeId_getOrCreate (db : MapDB) (eid et eid' et' : String) (v : ℕ)
    (h : activeId db eid et = some v) :
    activeId (get_or_create_thread db eid' et').1 eid et = some v := by
  unfold activeId at h
  obtain ⟨r, hfind, hv⟩ := Option.map_eq_some'.mp h
  unfold get_or_create_thread
  cases hf' : db.rows.find? (rowMatches eid' et' true) with
  | some r' =>
    show (db.rows.find? (rowMatches eid et true)).map MapRow.thread_id = some v
    rw [hfind]
    simp [hv]
  | none =>
    show ((db.rows ++ [({ external_id := eid', external_type := et', thread_id := db.nextId, is_active := true } : MapRow)]).find? (rowMatches eid et true)).map MapRow.thread_id = some v
    rw [find_append_some _ _ hfind]
    simp [hv]

/-- Deactivating a *different* key preserves the active mapping of this key. -/
theorem activeId_deactivate (db : MapDB) (eid et eid' et' : String) (v : ℕ)
    (q : MapDB × Bool) (hkey : ¬(eid' = eid ∧ et' = et))
    (h : activeId db eid et = some v)
    (hd : deactivate_thread db eid' et' = Except.ok q) :
    activeId q.1 eid et = some v := by
  unfold deactivate_thread at hd
  cases hfind : db.rows.find? (rowMatches eid' et' true) with
  | none =>
    rw [hfind] at hd
    simp only [Except.ok.injEq] at hd
    rw [← hd]
    exact h
  | some r =>
    rw [hfind] at hd
    by_cases hin : (db.rows.find? (rowMatches eid' et' false)).isSome
    · rw [if_pos hin] at hd
      exact absurd hd (by simp)
    · rw [if_neg hin] at hd
      simp only [Except.ok.injEq] at hd
      rw [← hd]
      unfold activeId at h ⊢
      show ((db.rows.map (deactivateFlip eid' et')).find? (rowMatches eid et true)).map MapRow.thread_id = some v
      rw [find_map_invariant (rowMatches eid et true) (deactivateFlip eid' et') ?hfix ?hnew db.rows]
      · exact h
      case hfix =>
        intro r0 hm
        unfold deactivateFlip
        rw [if_neg]
        intro hm'
        simp only [rowMatches, Bool.and_eq_true, beq_iff_eq] at hm hm'
        exact hkey ⟨by rw [← hm'.1.1, hm.1.1], by rw [← hm'.1.2, hm.1.2]⟩
      case hnew =>
        intro r0 hm
        unfold deactivateFlip
        split_ifs with hf
        · simp [rowMatches]
        · exact hm

/-- Any successful call other than `force_new` on this key preserves this
key's active mapping. -/
theorem activeId_preserved (db : MapDB) (eid et : String) (v : ℕ) (op : MapOp)
    (p : MapDB × ℕ) (h : activeId db eid et = some v)
    (hop : op ≠ MapOp.forceNew eid et) (hstep : mapStep db op = Except.ok p) :
    activeId p.1 eid et = some v := by
  cases op with
  | getOrCreate eid' et' =>
    simp only [mapStep, Except.ok.injEq] at hstep
    rw [← hstep]
    exact activeId_getOrCreate db eid et eid' et' v h
  | forceNew eid' et' =>
    have hkey : ¬(eid' = eid ∧ et' = et) := by
      rintro ⟨rfl, rfl⟩
      exact hop rfl
    simp only [mapStep] at hstep
    unfold create_new_thread_for_external at hstep
    cases hd : deactivate_thread db eid' et' with
    | error e =>
      rw [hd] at hstep
      exact absurd hstep (by simp)
    | ok q =>
      rw [hd] at hstep
      simp only [Except.ok.injEq] at hstep
      rw [← hstep]
      exact activeId_getOrCreate q.1 eid et eid' et' v
        (activeId_deactivate db eid et eid' et' v q hkey h hd)

/-- Run-level stability: while no `force_new` for the key occurs, every
`get_or_create` for the key answers the standing active id. -/
theorem stabilityRun (eid et : String) (ops : List MapOp) : ∀ (db : MapDB) (v : ℕ),
    activeId db eid et = some v → (∀ op ∈ ops, op ≠ MapOp.forceNew eid et) →
    ∀ pr ∈ (mapRun db ops).2, pr.1 = MapOp.getOrCreate eid et → pr.2 = Except.ok v := by
  induction ops with
  | nil =>
    intro db v _ _ pr hpr
    simp [mapRun] at hpr
  | cons op ops ih =>
    intro db v h hall pr hpr hop
    cases hstep : mapStep db op with
    | error e =>
      simp only [mapRun, hstep] at hpr
      rcases List.mem_cons.mp hpr with rfl | hpr'
      · have hop' : op = MapOp.getOrCreate eid et := hop
        rw [hop'] at hstep
        exact absurd hstep (by simp [mapStep])
      · exact ih db v h (fun o ho => hall o (List.mem_cons_of_mem _ ho)) pr hpr' hop
    | ok p =>
      simp only [mapRun, hstep] at hpr
      rcases List.mem_cons.mp hpr with rfl | hpr'
      · show Except.ok p.2 = Except.ok v
        have hop' : op = MapOp.getOrCreate eid et := hop
        rw [hop'] at hstep
        simp only [mapStep, Except.ok.injEq] at hstep
        rw [← hstep, getOrCreate_stable db eid et v h]
      · have hpres := activeId_preserved db eid et v op p h
          (hall op (List.mem_cons_self op ops)) hstep
        exact ih p.1 v hpres (fun o ho => hall o (List.mem_cons_of_mem _ ho)) pr hpr' hop

/-- Runs decompose over appended call sequences. -/
theorem mapRun_append (l1 l2 : List MapOp) : ∀ db : MapDB,
    mapRun db (l1 ++ l2)
      = ((mapRun (mapRun db l1).1 l2).1,
          (mapRun db l1).2 ++ (mapRun (mapRun db l1).1 l2).2) := by
  induction l1 with
  | nil => intro db; simp [mapRun]
  | cons op l1 ih =>
    intro db
    cases hstep : mapStep db op with
    | error e =>
      simp only [List.cons_append, mapRun, hstep, List.append_eq, ih db]
    | ok p =>
      simp only [List.cons_append, mapRun, hstep, List.append_eq, ih p.1]

/-- Each call produces exactly one result. -/
theorem mapRun_length (ops : List MapOp) : ∀ db : MapDB,
    (mapRun db ops).2.length = ops.length := by
  induction ops with
  | nil => intro db; rfl
  | cons op ops ih =>
    intro db
    cases hstep : mapStep db op with
    | error e => simp [mapRun, hstep, ih db]
    | ok p => simp [mapRun, hstep, ih p.1]

/-- C9: for any (external_id, external_type) key, (a) while no `force_new`
for the key occurs, every `get_or_create_thread` call returns the standing
active thread id — in particular the id of the first call, unchanged across
arbitrary interleaved calls on other keys; and (b) a `force_new`
(`create_new_thread_for_external`) that returns an id returns one that
differs from every id returned by any earlier call in the run (in particular
from every id previously returned for this key). -/
theorem c9_thread_binder (eid et : String) (db : MapDB) (ops : List MapOp)
    (hwf : dbWF db) :
    (∀ v, activeId db eid et = some v →
      (∀ op ∈ ops, op ≠ MapOp.forceNew eid et) →
      ∀ pr ∈ (mapRun db ops).2, pr.1 = MapOp.getOrCreate eid et → pr.2 = Except.ok v)
    ∧ (∀ ops1 ops2 id, ops = ops1 ++ MapOp.forceNew eid et :: ops2 →
        (mapRun db ops).2.get? ops1.length
          = some (MapOp.forceNew eid et, Except.ok id) →
        ∀ pr ∈ (mapRun db ops).2.take ops1.length, pr.2 ≠ Except.ok id) := by
  refine ⟨fun v h hall => stabilityRun eid et ops db v h hall, ?_⟩
  intro ops1 ops2 id hsplit hres pr hpr hok
  subst hsplit
  obtain ⟨hw1, hn1, hr1⟩ := mapRun_wf ops1 db hwf
  have hlen : (mapRun db ops1).2.length = ops1.length := mapRun_length ops1 db
  have h2 : (mapRun db (ops1 ++ MapOp.forceNew eid et :: ops2)).2
      = (mapRun db ops1).2
          ++ (mapRun (mapRun db ops1).1 (MapOp.forceNew eid et :: ops2)).2 := by
    rw [mapRun_append ops1 (MapOp.forceNew eid et :: ops2) db]
  rw [h2] at hres hpr
  rw [List.get?_append_right (by rw [hlen]), hlen, Nat.sub_self] at hres
  rw [← hlen, List.take_left] at hpr
  have hlt := hr1 pr hpr id hok
  cases hstep : mapStep (mapRun db ops1).1 (MapOp.forceNew eid et) with
  | error e =>
    rw [mapRun, hstep] at hres
    exact absurd hres (by simp)
  | ok p =>
    rw [mapRun, hstep] at hres
    have hpid : p.2 = id := by
      have h3 := hres
      simp only [List.get?_cons_zero, Option.some.injEq, Prod.mk.injEq,
        Except.ok.injEq] at h3
      exact h3.2
    have hfid : p.2 = (mapRun db ops1).1.nextId :=
      forceNew_returns_nextId (mapRun db ops1).1 eid et p hstep
    rw [← hpid, hfid] at hlt
    exact lt_irrefl _ hlt

def c9DB : MapDB :=
  { rows := [{ external_id := "p", external_type := "phone", thread_id := 0, is_active := true }], nextId := 1 }

def c9Ops : List MapOp := [MapOp.getOrCreate "p" "phone"]

/-- Concrete instance of C9's stability half: with thread 0 active for
("p", "phone"), a repeat `get_or_create_thread` answers 0 again. -/
theorem c9_witness :
    ((mapRun c9DB c9Ops).2.getD 0 (MapOp.forceNew "" "", Except.error ())).2
      = Except.ok 0 :=
  (c9_thread_binder "p" "phone" c9DB c9Ops (by unfold dbWF; decide)).1 0 (by decide) (by decide)
    ((mapRun c9DB c9Ops).2.getD 0 (MapOp.forceNew "" "", Except.error ()))
    (by decide) (by decide)

/-! ### C10: healthcare mode reads undeclared `StreamSession` attributes

`StreamSession` (media_stream.py lines 19-30) with exactly its nine declared
dataclass fields; Python attribute access is `getAttr`, which is `none`
(AttributeError) for any name that is not a declared field — dataclasses
without `__slots__` still only expose declared fields plus what is assigned,
and `receive_from_twilio` (lines 93-107) assigns only the six
`customParameters` keys into already-declared fields.  `on_session_start`
(server.py lines 163-190, healthcare branch) is modeled as the sequence of
attribute reads in the evaluation order of `HealthcareCallContext(...)`'s
keyword arguments; `Except.error name` is the AttributeError for `name`. -/

/-- A Python attribute value: a `str`, or `None` for unset Optional fields. -/
inductive PyAttr where
  | str (s : String)
  | noneVal
  deriving Repr, DecidableEq

structure StreamSession where
  stream_sid : String
  call_sid : String
  account_sid : String
  lead_id : Option String
  campaign_id : Option String
  business_name : Option String
  owner_name : Option String
  from_number : Option String
  to_number : Option String
  deriving Repr, DecidableEq

def optAttr : Option String → PyAttr
  | some v => PyAttr.str v
  | none => PyAttr.noneVal

/-- `getattr(session, name)`: `some` for the nine declared fields, `none`
(AttributeError) otherwise. -/
def StreamSession.getAttr (s : StreamSession) (name : String) : Option PyAttr :=
  if name = "stream_sid" then some (PyAttr.str s.stream_sid)
  else if name = "call_sid" then some (PyAttr.str s.call_sid)
  else if name = "account_sid" then some (PyAttr.str s.account_sid)
  else if name = "lead_id" then some (optAttr s.lead_id)
  else if name = "campaign_id" then some (optAttr s.campaign_id)
  else if name = "business_name" then some (optAttr s.business_name)
  else if name = "owner_name" then some (optAttr s.owner_name)
  else if name = "from_number" then some (optAttr s.from_number)
  else if name = "to_number" then some (optAttr s.to_number)
  else none

/-- The session built by `receive_from_twilio`'s "start" handler
(media_stream.py lines 93-107): the three SIDs, then the six
`customParameters` lookups — none of the appointment fields. -/
def streamStartSession (streamSid callSid accountSid : String)
    (customParams : String → Option String) : StreamSession :=
  { stream_sid := streamSid, call_sid := callSid, account_sid := accountSid,
    lead_id := customParams "lead_id", campaign_id := customParams "campaign_id",
    business_name := customParams "business_name",
    owner_name := customParams "owner_name",
    from_number := customParams "from_number",
    to_number := customParams "to_number" }

/-- `session.<name>`, raising AttributeError for undeclared names. -/
def readAttr (s : StreamSession) (name : String) : Except String PyAttr :=
  match s.getAttr name with
  | some v => Except.ok v
  | none => Except.error name

/-- Python `x or "dflt"` for a str-or-None `x`. -/
def pyOr (v : PyAttr) (dflt : String) : String :=
  match v with
  | PyAttr.str t => if t = "" then dflt else t
  | PyAttr.noneVal => dflt

/-- Plain str coercion of an attribute (used where no `or` default is
applied). -/
def pyStrOf : PyAttr → String
  | PyAttr.str t => t
  | PyAttr.noneVal => ""

structure HealthcareCallContext where
  call_id : String
  patient_name : String
  phone_number : String
  appointment_date : String
  appointment_time : String
  provider_name : String
  clinic_name : String
  appointment_type : String
  call_sid : String
  deriving Repr, DecidableEq

/-- The healthcare branch of `on_session_start` (server.py lines 175-190):
the keyword arguments of `HealthcareCallContext(...)` evaluate left to
right, each reading a session attribute; the first AttributeError aborts. -/
def onSessionStartHealthcare (s : StreamSession) :
    Except String HealthcareCallContext := do
  let vCallSid ← readAttr s "call_sid"
  let vOwner ← readAttr s "owner_name"
  let vTo ← readAttr s "to_number"
  let vDate ← readAttr s "appointment_date"
  let vTime ← readAttr s "appointment_time"
  let vProv ← readAttr s "provider_name"
  let vBiz ← readAttr s "business_name"
  let vType ← readAttr s "appointment_type"
  pure { call_id := pyOr vCallSid "test_call", patient_name := pyOr vOwner "Patient", phone_number := pyOr vTo "+15551234567", appointment_date := pyOr vDate "January 17, 2026", appointment_time := pyOr vTime "2:30 PM", provider_name := pyOr vProv "Dr. Williams", clinic_name := pyOr vBiz "Downtown Medical Center", appointment_type := pyOr vType "Appointment", call_sid := pyStrOf vCallSid }

/-- C10: for every stream-start message, the session the media-stream
handler builds has no `appointment_date`, `appointment_time`,
`provider_name` or `appointment_type` attribute, and the healthcare
session-start handler therefore raises AttributeError at the first of them
(`appointment_date`) — the healthcare call context is never built. -/
theorem c10_healthcare_attribute_error (streamSid callSid accountSid : String)
    (customParams : String → Option String) :
    onSessionStartHealthcare
        (streamStartSession streamSid callSid accountSid customParams)
      = Except.error "appointment_date"
    ∧ (streamStartSession streamSid callSid accountSid customParams).getAttr
        "appointment_date" = none
    ∧ (streamStartSession streamSid callSid accountSid customParams).getAttr
        "appointment_time" = none
    ∧ (streamStartSession streamSid callSid accountSid customParams).getAttr
        "provider_name" = none
    ∧ (streamStartSession streamSid callSid accountSid customParams).getAttr
        "appointment_type" = none :=
  ⟨rfl, rfl, rfl, rfl, rfl⟩
